import Mathlib

/-!
Verification development for the easy-study booking backend
(`backend/app`).  The definitions below are a shallow embedding of the
Python source: routes `bookings.py` and `availability.py`, services
`payment_service.py`, `google_calendar_service.py`, `google_meet.py`, and
the Beanie document models.  Money is modelled as `ℚ`; Python
`round(x, 2)` is modelled by `round2` (rounding to an integer number of
cents; the tie-breaking rule differs from CPython banker's rounding only
at exact half-cents, which no statement below depends on).  Database
collections are lists, `find_one` is `List.find?`, and each route is a
pure function from a database state to `Except` of an error or an
updated state.
-/

/-- Booking lifecycle status, from `app/models/booking.py` (`BookingStatus`). -/
inductive BookingStatus
  | pending
  | confirmed
  | completed
  | cancelled
deriving DecidableEq, Repr

/-- Session kind, from `app/models/booking.py` (`SessionType`).  `private` is a
Lean keyword, so the constructor is named `priv`. -/
inductive SessionType
  | priv
  | group
deriving DecidableEq, Repr

/-- Payment lifecycle status, from `app/models/payment.py` (`PaymentStatus`). -/
inductive PaymentStatus
  | pending
  | completed
  | failed
  | refunded
deriving DecidableEq, Repr

/-- Platform-wide rate configuration, from
`app/models/platform_settings.py` (`PlatformSettings`). -/
structure PlatformSettings where
  tutorCommissionRate : ℚ
  studentPlatformFeeRate : ℚ
deriving DecidableEq, Repr

/-- Python `round(x, 2)`: round to a whole number of cents. -/
def round2 (q : ℚ) : ℚ := (round (q * 100) : ℚ) / 100

/-- Predicate: `q` is a whole number of cents. -/
def IsCentMultiple (q : ℚ) : Prop := ∃ k : ℤ, q = (k : ℚ) / 100

/-- Result record of `PaymentService.calculate_fees`
(`app/services/payment_service.py`).  `admission_fee` is kept equal to
`student_platform_fee` for backward compatibility, as in the source. -/
structure Fees where
  sessionAmount : ℚ
  commissionFee : ℚ
  admissionFee : ℚ
  studentPlatformFee : ℚ
  totalPlatformFee : ℚ
  tutorEarnings : ℚ
  chargeAmount : ℚ
  tutorCommissionRate : ℚ
  studentPlatformFeeRate : ℚ
  isFirstBooking : Bool
deriving DecidableEq, Repr

/-- Embeds `PaymentService.get_platform_rates`: reads the settings document and
clamps each rate below at `0.0` (`max(0.0, float(rate))`). -/
def getPlatformRates (s : PlatformSettings) : ℚ × ℚ :=
  (max 0 s.tutorCommissionRate, max 0 s.studentPlatformFeeRate)

/-- Embeds `PaymentService.calculate_fees`: every derived field is rounded to two
decimal places, exactly as in the source. -/
def calculateFees (s : PlatformSettings) (sessionAmount : ℚ) (isFirst : Bool) : Fees :=
  let rates := getPlatformRates s
  let commissionFee := round2 (sessionAmount * rates.1)
  let studentPlatformFee := round2 (sessionAmount * rates.2)
  { sessionAmount := sessionAmount
    commissionFee := commissionFee
    admissionFee := studentPlatformFee
    studentPlatformFee := studentPlatformFee
    totalPlatformFee := round2 (commissionFee + studentPlatformFee)
    tutorEarnings := round2 (sessionAmount - commissionFee)
    chargeAmount := round2 (sessionAmount + studentPlatformFee)
    tutorCommissionRate := rates.1
    studentPlatformFeeRate := rates.2
    isFirstBooking := isFirst }

lemma round2_int_div (k : ℤ) : round2 ((k : ℚ) / 100) = (k : ℚ) / 100 := by
  unfold round2
  have h : ((k : ℚ) / 100) * 100 = (k : ℚ) := by
    field_simp
  rw [h, round_intCast]

lemma isCentMultiple_round2 (q : ℚ) : IsCentMultiple (round2 q) :=
  ⟨round (q * 100), rfl⟩

lemma round2_eq_self {q : ℚ} (h : IsCentMultiple q) : round2 q = q := by
  obtain ⟨k, rfl⟩ := h
  exact round2_int_div k

lemma IsCentMultiple.sub {a b : ℚ} (ha : IsCentMultiple a) (hb : IsCentMultiple b) :
    IsCentMultiple (a - b) := by
  obtain ⟨k, rfl⟩ := ha
  obtain ⟨l, rfl⟩ := hb
  refine ⟨k - l, ?_⟩
  push_cast
  ring

lemma IsCentMultiple.add {a b : ℚ} (ha : IsCentMultiple a) (hb : IsCentMultiple b) :
    IsCentMultiple (a + b) := by
  obtain ⟨k, rfl⟩ := ha
  obtain ⟨l, rfl⟩ := hb
  refine ⟨k + l, ?_⟩
  push_cast
  ring

/-- Python truthiness of an optional string (`None` and `""` are falsy). -/
def strTruthy (o : Option String) : Bool :=
  match o with
  | none => false
  | some s => s ≠ ""

/-- Python `a or b` on optional strings, as used on `meeting_link` /
`google_event_id` fields in `routes/bookings.py`. -/
def pyOr (a b : Option String) : Option String :=
  if strTruthy a then a else b

/-- Authenticated user (`app/models/user.py`, `User`). -/
structure UserAcct where
  id : ℕ
  email : String
  fullName : String
deriving DecidableEq, Repr

/-- Tutor profile (`app/models/tutor.py`, `TutorProfile`); only the fields
the booking and calendar flows read.  `hasGoogleAccessToken` models the
presence of `google_access_token` (from which
`TutorGoogleCalendarService._credentials_from_tutor` builds credentials). -/
structure TutorProfile where
  id : ℕ
  userId : ℕ
  hourlyRate : ℚ
  groupHourlyRate : ℚ
  email : Option String
  fullName : Option String
  offersPrivate : Bool
  offersGroup : Bool
  googleCalendarConnected : Bool
  hasGoogleAccessToken : Bool
deriving DecidableEq, Repr

/-- Booking document (`app/models/booking.py`, `Booking`).  `scheduledAt`
is an abstract instant. -/
structure Booking where
  id : ℕ
  studentId : ℕ
  tutorId : ℕ
  subject : String
  sessionType : SessionType
  scheduledAt : ℕ
  durationMinutes : ℕ
  price : ℚ
  currency : String
  status : BookingStatus
  notes : Option String
  meetingLink : Option String
  googleEventId : Option String
  studentName : Option String
  tutorName : Option String
  studentEmail : Option String
  tutorEmail : Option String
deriving DecidableEq, Repr

/-- Payment document (`app/models/payment.py`, `Payment`), with the fee
fields `PaymentService.create_payment` passes to its constructor. -/
structure Payment where
  id : ℕ
  bookingId : ℕ
  studentId : ℕ
  tutorId : ℕ
  sessionAmount : ℚ
  currency : String
  admissionFee : ℚ
  commissionFee : ℚ
  studentPlatformFee : ℚ
  totalPlatformFee : ℚ
  tutorEarnings : ℚ
  chargeAmount : ℚ
  tutorCommissionRate : ℚ
  studentPlatformFeeRate : ℚ
  isFirstBooking : Bool
  status : PaymentStatus
deriving DecidableEq, Repr

/-- Student/tutor relation document (`app/models/payment.py`,
`StudentTutorRelation`). -/
structure StudentTutorRelation where
  studentId : ℕ
  tutorId : ℕ
  firstBookingId : ℕ
  totalBookings : ℕ
  totalSpent : ℚ
deriving DecidableEq, Repr

/-- Database state: the collections the booking flows touch, plus a
fresh-id counter standing in for MongoDB object-id generation. -/
structure DB where
  bookings : List Booking
  payments : List Payment
  relations : List StudentTutorRelation
  tutors : List TutorProfile
  settings : PlatformSettings
  nextId : ℕ
deriving DecidableEq, Repr

/-- Request body `BookingCreate` (`app/schemas/booking.py`). -/
structure BookingCreate where
  tutorId : ℕ
  subject : String
  sessionType : SessionType
  scheduledAt : ℕ
  durationMinutes : ℕ
  notes : Option String
  currency : String
deriving DecidableEq, Repr

/-- Errors raised (as `HTTPException`s) by the embedded routes. -/
inductive Err
  | tutorNotFound
  | studentEmailRequired
  | alreadyBooked
  | bookingNotFound
  | notAuthorized
  | alreadyConfirmed
  | missingStudentEmail
  | alreadyCancelled
deriving DecidableEq, Repr

/-- Embeds `PaymentService.is_first_booking`: true iff no
`StudentTutorRelation` row exists for the pair. -/
def isFirstBookingCheck (relations : List StudentTutorRelation) (studentId tutorId : ℕ) : Bool :=
  (relations.find? fun r => decide (r.studentId = studentId ∧ r.tutorId = tutorId)).isNone

/-- Embeds `PaymentService.create_payment`: computes the first-booking flag and
fees, inserts the payment (status `pending`), then creates the relation
row (if first) or increments it (otherwise). -/
def createPayment (db : DB) (bookingId studentId tutorId : ℕ) (sessionAmount : ℚ)
    (currency : String) : DB × Payment :=
  let isFirst := isFirstBookingCheck db.relations studentId tutorId
  let fees := calculateFees db.settings sessionAmount isFirst
  let payment : Payment :=
    { id := db.nextId
      bookingId := bookingId
      studentId := studentId
      tutorId := tutorId
      sessionAmount := sessionAmount
      currency := currency
      admissionFee := fees.admissionFee
      commissionFee := fees.commissionFee
      studentPlatformFee := fees.studentPlatformFee
      totalPlatformFee := fees.totalPlatformFee
      tutorEarnings := fees.tutorEarnings
      chargeAmount := fees.chargeAmount
      tutorCommissionRate := fees.tutorCommissionRate
      studentPlatformFeeRate := fees.studentPlatformFeeRate
      isFirstBooking := isFirst
      status := PaymentStatus.pending }
  let relations :=
    if isFirst then
      db.relations ++ [{ studentId := studentId, tutorId := tutorId,
                         firstBookingId := bookingId, totalBookings := 1,
                         totalSpent := sessionAmount }]
    else
      db.relations.map fun r =>
        if r.studentId = studentId ∧ r.tutorId = tutorId then
          { r with totalBookings := r.totalBookings + 1,
                   totalSpent := r.totalSpent + sessionAmount }
        else r
  ({ db with payments := db.payments ++ [payment],
             relations := relations,
             nextId := db.nextId + 1 }, payment)

/-- INR→USD conversion constant `INR_TO_USD_RATE = 0.012` from
`routes/bookings.py`. -/
def inrToUsdRate : ℚ := 12 / 1000

/-- Hourly-rate selection in `create_booking`: group sessions use
`group_hourly_rate` when truthy (non-zero), else 60% of the private rate. -/
def hourlyRateFor (tutor : TutorProfile) (sessionType : SessionType) : ℚ :=
  if sessionType = SessionType.group then
    if tutor.groupHourlyRate ≠ 0 then tutor.groupHourlyRate
    else tutor.hourlyRate * (6 / 10)
  else tutor.hourlyRate

/-- Session price in `create_booking`: the INR price prorated by duration,
converted (and rounded) only for USD. -/
def sessionPriceFor (tutor : TutorProfile) (req : BookingCreate) : ℚ :=
  let inr := hourlyRateFor tutor req.sessionType * ((req.durationMinutes : ℚ) / 60)
  if req.currency = "USD" then round2 (inr * inrToUsdRate) else inr

/-- The duplicate-booking lookup in `create_booking`: a booking by the
*same student* for the identical (tutor, sessionType, scheduledAt,
durationMinutes) tuple whose status is not `cancelled`. -/
def findDuplicate (db : DB) (studentId : ℕ) (req : BookingCreate) : Option Booking :=
  db.bookings.find? fun b => decide
    (b.studentId = studentId ∧ b.tutorId = req.tutorId ∧
     b.sessionType = req.sessionType ∧ b.scheduledAt = req.scheduledAt ∧
     b.durationMinutes = req.durationMinutes ∧ b.status ≠ BookingStatus.cancelled)

/-- The `Booking(...)` literal `create_booking` constructs: status
`pending`, no link or event yet, display names and emails denormalized
from the current user and tutor profiles. -/
def newBooking (db : DB) (user : UserAcct) (req : BookingCreate)
    (tutor : TutorProfile) : Booking :=
  { id := db.nextId
    studentId := user.id
    tutorId := req.tutorId
    subject := req.subject
    sessionType := req.sessionType
    scheduledAt := req.scheduledAt
    durationMinutes := req.durationMinutes
    price := sessionPriceFor tutor req
    currency := req.currency
    status := BookingStatus.pending
    notes := req.notes
    meetingLink := none
    googleEventId := none
    studentName := some user.fullName
    tutorName := tutor.fullName
    studentEmail := some user.email
    tutorEmail := tutor.email }

/-- Success path of `create_booking` once all guards passed: insert the
booking, then try to create the payment record.  `paymentFails = true`
models an exception inside `payment_service.create_payment`, which the
route catches and logs, leaving the booking in place. -/
def insertBookingAndPay (db : DB) (user : UserAcct) (req : BookingCreate)
    (tutor : TutorProfile) (paymentFails : Bool) : DB × Booking :=
  let booking := newBooking db user req tutor
  let db1 := { db with bookings := db.bookings ++ [booking], nextId := db.nextId + 1 }
  if paymentFails then (db1, booking)
  else ((createPayment db1 booking.id user.id req.tutorId booking.price req.currency).1, booking)

/-- Embeds `POST /bookings` (`create_booking` in `routes/bookings.py`): tutor
lookup, student-email guard, same-student duplicate guard, then insertion
of the booking and (best-effort) payment record. -/
def createBooking (db : DB) (user : UserAcct) (req : BookingCreate)
    (paymentFails : Bool) : Except Err (DB × Booking) :=
  match db.tutors.find? fun t => decide (t.id = req.tutorId) with
  | none => .error .tutorNotFound
  | some tutor =>
    if user.email = "" then .error .studentEmailRequired
    else if (findDuplicate db user.id req).isSome then .error .alreadyBooked
    else .ok (insertBookingAndPay db user req tutor paymentFails)

/-- Outcome status of a meeting-provisioning call
(`status` field of the dicts returned by the calendar services). -/
inductive MeetStatus
  | created
  | updated
  | pendingMeetLink
deriving DecidableEq, Repr

/-- The dict returned by `create_meet_event_for_tutor` /
`add_attendee_to_event_for_tutor` / `GoogleMeetService.create_meet_event`
(the fields the booking route reads). -/
structure MeetResult where
  eventId : Option String
  meetLink : Option String
  status : MeetStatus
deriving DecidableEq, Repr

/-- Environment outcome of one Google Calendar `insert` round-trip:
either the provider answers (event id plus optional video entry point),
or the call raises (covering token-refresh failures, `HttpError` and any
other exception, all caught by the service). -/
inductive ApiOutcome
  | ok (eventId : String) (meetLink : Option String)
  | fail
deriving DecidableEq, Repr

/-- Environment outcome of the get/update round-trip inside
`add_attendee_to_event_for_tutor`: the event's optional video link, or a
raised exception. -/
inductive AttendOutcome
  | ok (meetLink : Option String)
  | fail
deriving DecidableEq, Repr

/-- External calendar, recorded as the list of event ids created so far
(used to observe whether a provisioning call created a new artifact). -/
abbrev ExtCal := List String

/-- Embeds `TutorGoogleCalendarService.create_meet_event_for_tutor`: degrades to
the `pending_meet_link` fallback when the tutor is not connected, has no
stored token, or the refresh/API call raises; otherwise creates a new
calendar event with a Meet link. -/
def createMeetEventForTutor (tutor : TutorProfile) (api : ApiOutcome) (cal : ExtCal) :
    MeetResult × ExtCal :=
  let fallback : MeetResult := { eventId := none, meetLink := none, status := .pendingMeetLink }
  if ¬ tutor.googleCalendarConnected then (fallback, cal)
  else if ¬ tutor.hasGoogleAccessToken then (fallback, cal)
  else
    match api with
    | .fail => (fallback, cal)
    | .ok eventId meetLink =>
      ({ eventId := some eventId, meetLink := meetLink, status := .created }, cal ++ [eventId])

/-- Embeds `TutorGoogleCalendarService.add_attendee_to_event_for_tutor`: the
fallback keeps the passed event id; success returns the event's id and
link with status `updated`.  No new artifact is created. -/
def addAttendeeToEventForTutor (tutor : TutorProfile) (eventId : String)
    (api : AttendOutcome) : MeetResult :=
  let fallback : MeetResult := { eventId := some eventId, meetLink := none, status := .pendingMeetLink }
  if ¬ tutor.googleCalendarConnected then fallback
  else if ¬ tutor.hasGoogleAccessToken then fallback
  else
    match api with
    | .fail => fallback
    | .ok meetLink => { eventId := some eventId, meetLink := meetLink, status := .updated }

/-- State of the process-global `GoogleMeetService` singleton
(`app/services/google_meet.py`): whether `_ensure_initialized` has run,
and whether it produced a working (platform-credentialed) service handle. -/
structure MeetSvc where
  inited : Bool
  service : Bool
deriving DecidableEq, Repr

/-- Embeds `GoogleMeetService._ensure_initialized`: on first use, run
`_initialize_service`, whose success is the deployment configuration
`cfg` (client secret and token present and valid). -/
def ensureInit (svc : MeetSvc) (cfg : Bool) : MeetSvc :=
  if svc.inited then svc else { inited := true, service := cfg }

/-- Embeds `GoogleMeetService.create_meet_event`: lazily initializes, then either
returns the `pending_meet_link` fallback (no service handle, or the API
raises) or creates a new platform-owned event. -/
def platformCreateMeetEvent (svc : MeetSvc) (cfg : Bool) (api : ApiOutcome) (cal : ExtCal) :
    MeetSvc × MeetResult × ExtCal :=
  let svc1 := ensureInit svc cfg
  let fallback : MeetResult := { eventId := none, meetLink := none, status := .pendingMeetLink }
  if ¬ svc1.service then (svc1, fallback, cal)
  else
    match api with
    | .fail => (svc1, fallback, cal)
    | .ok eventId meetLink =>
      (svc1, { eventId := some eventId, meetLink := meetLink, status := .created }, cal ++ [eventId])

/-- The group-reuse lookup in `confirm_booking`: another booking (different
id) by the same tutor, of session type `group`, at the identical
(scheduledAt, durationMinutes), already `confirmed`, with a non-null
`google_event_id`. -/
def findExistingGroupBooking (db : DB) (booking : Booking) : Option Booking :=
  db.bookings.find? fun b => decide
    (b.id ≠ booking.id ∧ b.tutorId = booking.tutorId ∧
     b.sessionType = SessionType.group ∧ b.scheduledAt = booking.scheduledAt ∧
     b.durationMinutes = booking.durationMinutes ∧
     b.status = BookingStatus.confirmed ∧ b.googleEventId ≠ none)

/-- Replace a booking (matched by id) in the collection (`booking.save()`). -/
def saveBooking (bookings : List Booking) (b : Booking) : List Booking :=
  bookings.map fun x => if x.id = b.id then b else x

/-- Embeds `complete_payment` applied to the first payment found for the booking
(the `try` block at the end of `confirm_booking`). -/
def completePaymentForBooking (db : DB) (bookingId : ℕ) : DB :=
  match db.payments.find? fun p => decide (p.bookingId = bookingId) with
  | none => db
  | some payment =>
    { db with payments := db.payments.map fun p =>
        if p.id = payment.id then { p with status := PaymentStatus.completed } else p }

/-- Tail of `confirm_booking` after the provisioning attempt `mr1`
produced booking state `b1`: flip the status, run the platform-level
fallback when the tutor-scoped attempt reported `pending_meet_link`, fill
the link/event fields from whichever result is at hand, save, and
complete the payment. -/
def confirmFinish (db : DB) (svc : MeetSvc) (bookingId : ℕ) (cfg : Bool)
    (pApi : ApiOutcome) (mr1 : MeetResult) (b1 : Booking) (cal : ExtCal) :
    DB × MeetSvc × ExtCal × Booking :=
  let b2 := { b1 with status := BookingStatus.confirmed }
  -- platform-level fallback when the tutor-scoped attempt degraded
  let step3 : MeetSvc × MeetResult × ExtCal :=
    if mr1.status = MeetStatus.pendingMeetLink then
      platformCreateMeetEvent svc cfg pApi cal
    else (svc, mr1, cal)
  let mr := step3.2.1
  let b3 := { b2 with meetingLink := pyOr b2.meetingLink mr.meetLink,
                      googleEventId := pyOr b2.googleEventId mr.eventId }
  let db1 := { db with bookings := saveBooking db.bookings b3 }
  let db2 := completePaymentForBooking db1 bookingId
  (db2, step3.1, step3.2.2, b3)

/-- Success path of `confirm_booking` once the lookup, authorization,
already-confirmed and student-email guards have passed: group-event
reuse, tutor-scoped event creation, then `confirmFinish`. -/
def confirmCore (db : DB) (svc : MeetSvc) (cal : ExtCal) (booking : Booking)
    (tutor : TutorProfile) (bookingId : ℕ) (tApi : ApiOutcome) (aApi : AttendOutcome)
    (cfg : Bool) (pApi : ApiOutcome) : DB × MeetSvc × ExtCal × Booking :=
  -- group reuse of an existing confirmed booking's event
  let step1 : Option MeetResult × Booking × ExtCal :=
    if booking.sessionType = SessionType.group then
      match findExistingGroupBooking db booking with
      | some existing =>
        match existing.googleEventId with
        | some eid =>
          let mr := addAttendeeToEventForTutor tutor eid aApi
          (some mr,
           { booking with googleEventId := existing.googleEventId,
                          meetingLink := pyOr existing.meetingLink mr.meetLink },
           cal)
        | none => (none, booking, cal)
      | none => (none, booking, cal)
    else (none, booking, cal)
  -- private sessions (or first group confirmation) create a new event
  match step1 with
  | (some mr, b1, c) => confirmFinish db svc bookingId cfg pApi mr b1 c
  | (none, b1, c) =>
    let (mr, c') := createMeetEventForTutor tutor tApi c
    confirmFinish db svc bookingId cfg pApi mr b1 c'

/-- Embeds `POST /bookings/:id/confirm` (`confirm_booking` in
`routes/bookings.py`).  `tApi`/`aApi` are the outcomes of the tutor-scoped
calendar calls, `cfg`/`pApi` configure the process-global platform
fallback service. -/
def confirmBooking (db : DB) (svc : MeetSvc) (cal : ExtCal) (user : UserAcct)
    (bookingId : ℕ) (tApi : ApiOutcome) (aApi : AttendOutcome) (cfg : Bool)
    (pApi : ApiOutcome) : Except Err (DB × MeetSvc × ExtCal × Booking) :=
  match db.bookings.find? fun b => decide (b.id = bookingId) with
  | none => .error .bookingNotFound
  | some booking =>
    match db.tutors.find? fun t => decide (t.userId = user.id) with
    | none => .error .notAuthorized
    | some tutor =>
      if tutor.id ≠ booking.tutorId then .error .notAuthorized
      else if booking.status = BookingStatus.confirmed then .error .alreadyConfirmed
      else if ¬ strTruthy booking.studentEmail then .error .missingStudentEmail
      else .ok (confirmCore db svc cal booking tutor bookingId tApi aApi cfg pApi)

/-- Success path of `cancel_booking`: flip the status to cancelled and
save (the remote-event deletion is best-effort and leaves no local
state). -/
def cancelCore (db : DB) (booking : Booking) : DB × Booking :=
  let b1 := { booking with status := BookingStatus.cancelled }
  ({ db with bookings := saveBooking db.bookings b1 }, b1)

/-- Embeds `POST /bookings/:id/cancel` (`cancel_booking` in
`routes/bookings.py`): both the student and the owning tutor may cancel;
only an already-cancelled booking is rejected. -/
def cancelBooking (db : DB) (user : UserAcct) (bookingId : ℕ) :
    Except Err (DB × Booking) :=
  match db.bookings.find? fun b => decide (b.id = bookingId) with
  | none => .error .bookingNotFound
  | some booking =>
    if booking.studentId ≠ user.id ∧
        (db.tutors.find? fun t => decide (t.userId = user.id)).map (·.id) ≠
          some booking.tutorId then
      .error .notAuthorized
    else if booking.status = BookingStatus.cancelled then .error .alreadyCancelled
    else .ok (cancelCore db booking)

/-- Request body `BookingUpdate` (`app/schemas/booking.py`); a `none`
field is an unset field (`exclude_unset=True`). -/
structure BookingUpdate where
  status : Option BookingStatus
  scheduledAt : Option ℕ
  notes : Option String
  meetingLink : Option String
deriving DecidableEq, Repr

/-- Success path of `update_booking`: apply every set field and save. -/
def updateCore (db : DB) (booking : Booking) (upd : BookingUpdate) : DB × Booking :=
  let b1 := { booking with
    status := upd.status.getD booking.status,
    scheduledAt := upd.scheduledAt.getD booking.scheduledAt,
    notes := match upd.notes with | some n => some n | none => booking.notes,
    meetingLink := match upd.meetingLink with
      | some l => some l
      | none => booking.meetingLink }
  ({ db with bookings := saveBooking db.bookings b1 }, b1)

/-- Embeds `PUT /bookings/:id` (`update_booking` in `routes/bookings.py`):
applies every set field, including an arbitrary `status`, with no
transition validation.  Note the authorization check compares
`booking.tutor_id` against the *user* id directly. -/
def updateBooking (db : DB) (user : UserAcct) (bookingId : ℕ) (upd : BookingUpdate) :
    Except Err (DB × Booking) :=
  match db.bookings.find? fun b => decide (b.id = bookingId) with
  | none => .error .bookingNotFound
  | some booking =>
    if booking.studentId ≠ user.id ∧ booking.tutorId ≠ user.id then
      .error .notAuthorized
    else .ok (updateCore db booking upd)

/-- One `{start_time, end_time}` entry of a weekly schedule
(`TimeSlotSchema` in `app/schemas/availability.py`). -/
structure SlotEntry where
  startTime : String
  endTime : String
deriving DecidableEq, Repr

/-- A weekly-schedule dict (day name → slot list), kept as an association
list so that Python dict truthiness (`{}` is falsy, `{"monday": []}` is
truthy) is representable. -/
abbrev Sched := List (String × List SlotEntry)

/-- Embeds `dict.get(day, [])`. -/
def schedGet (s : Sched) (day : String) : List SlotEntry :=
  match s.find? fun p => decide (p.1 = day) with
  | some p => p.2
  | none => []

/-- Tutor availability document.  The document class in
`app/models/availability.py` lags behind the routes: the split-schedule
fields (`private_weekly_schedule`, `group_weekly_schedule`,
`group_session_capacity`) are exactly the attributes
`routes/availability.py` reads and writes on it, so they are embedded
here alongside the fields the model file declares. -/
structure TutorAvailability where
  tutorId : ℕ
  sessionDuration : ℕ
  bufferTime : ℕ
  isAcceptingStudents : Bool
  weeklySchedule : Sched
  privateWeeklySchedule : Sched
  groupWeeklySchedule : Sched
  groupSessionCapacity : ℕ
deriving DecidableEq, Repr

/-- Embeds `_get_schedule_by_session_type`: the group map for group sessions,
otherwise the private map with Python-`or` fallback to the legacy map. -/
def scheduleBySessionType (a : TutorAvailability) (sessionType : String) : Sched :=
  if sessionType = "group" then a.groupWeeklySchedule
  else if a.privateWeeklySchedule ≠ [] then a.privateWeeklySchedule
  else a.weeklySchedule

/-- A calendar date. -/
structure CalDate where
  year : ℕ
  month : ℕ
  day : ℕ
deriving DecidableEq, Repr

/-- Lexicographic strict order on dates (`date_obj.date() < today`). -/
def dateLtB (a b : CalDate) : Bool :=
  a.year < b.year ∨ (a.year = b.year ∧ (a.month < b.month ∨ (a.month = b.month ∧ a.day < b.day)))

/-- Gregorian leap year. -/
def isLeapYear (y : ℕ) : Bool := (y % 4 = 0 && y % 100 ≠ 0) || y % 400 = 0

/-- Embeds `calendar.monthrange(year, month)[1]`: the number of days in the month. -/
def monthLength (y m : ℕ) : ℕ :=
  if m = 2 then (if isLeapYear y then 29 else 28)
  else if m = 4 ∨ m = 6 ∨ m = 9 ∨ m = 11 then 30
  else 31

/-- Days since 1970-01-01 of a civil date (Hinnant's algorithm). -/
def daysFromCivil (y m d : ℕ) : ℤ :=
  let y1 : ℤ := if m ≤ 2 then (y : ℤ) - 1 else (y : ℤ)
  let era : ℤ := Int.ediv y1 400
  let yoe : ℤ := y1 - era * 400
  let mp : ℕ := (m + 9) % 12
  let doy : ℤ := ((153 * (mp : ℤ) + 2) / 5) + (d : ℤ) - 1
  let doe : ℤ := yoe * 365 + Int.ediv yoe 4 - Int.ediv yoe 100 + doy
  era * 146097 + doe - 719468

/-- The `day_names` list in `routes/availability.py`. -/
def dayNames : List String :=
  ["monday", "tuesday", "wednesday", "thursday", "friday", "saturday", "sunday"]

/-- Embeds `day_names[date_obj.weekday()]` (Python weekday: Monday = 0;
1970-01-01 was a Thursday). -/
def weekdayName (y m d : ℕ) : String :=
  dayNames.getD ((Int.emod (daysFromCivil y m d + 3) 7).toNat) "monday"

/-- Blocked-date document (`BlockedDate` in `app/models/availability.py`). -/
structure BlockedDateR where
  tutorId : ℕ
  date : CalDate
  reason : Option String
deriving DecidableEq, Repr

/-- One entry of the calendar response (`CalendarDayStatus` plus the
`time_slots` field the route actually fills in). -/
structure CalendarDayStatus where
  date : CalDate
  isAvailable : Bool
  isBlocked : Bool
  reason : Option String
  slotsCount : ℕ
  timeSlots : List SlotEntry
deriving DecidableEq, Repr

/-- Month calendar response as built by the routes. -/
structure MonthCalendarResponse where
  year : ℕ
  month : ℕ
  sessionDuration : ℕ
  bufferTime : ℕ
  days : List CalendarDayStatus
deriving DecidableEq, Repr

/-- The tutor's blocked dates falling in the requested month.  The source
fetches the datetime range [1st of month, 1st of next month) and keys a
set by the `"%Y-%m-%d"` string; over valid dates this is equality of the
(year, month) pair. -/
def blockedDatesFor (blocked : List BlockedDateR) (tutorId year month : ℕ) : List CalDate :=
  (blocked.filter fun b =>
    decide (b.tutorId = tutorId ∧ b.date.year = year ∧ b.date.month = month)).map (·.date)

/-- One day of the public month calendar (the loop body of
`get_tutor_public_calendar`): blocked-or-past days are folded into
`is_blocked`, availability additionally requires a configured slot for
the weekday and `is_accepting_students`, and the block reason is always
withheld. -/
def publicCalendarDay (a : TutorAvailability) (sessionType : String)
    (blockedDates : List CalDate) (today : CalDate) (year month d : ℕ) : CalendarDayStatus :=
  let date : CalDate := { year := year, month := month, day := d }
  let isBlocked := decide (date ∈ blockedDates) || dateLtB date today
  let slots := schedGet (scheduleBySessionType a sessionType) (weekdayName year month d)
  let avail := decide (0 < slots.length) && !isBlocked && a.isAcceptingStudents
  { date := date
    isAvailable := avail
    isBlocked := isBlocked
    reason := none
    slotsCount := if avail then slots.length else 0
    timeSlots := if avail then slots else [] }

/-- Empty month response (`MonthCalendarResponse(..., days=[])` with the
default duration/buffer values used by the early returns). -/
def emptyMonthResponse (year month : ℕ) : MonthCalendarResponse :=
  { year := year, month := month, sessionDuration := 60, bufferTime := 0, days := [] }

/-- Embeds `GET /availability/public/:tutor_id/calendar/:year/:month`
(`get_tutor_public_calendar` in `routes/availability.py`). -/
def getTutorPublicCalendar (tutors : List TutorProfile) (avails : List TutorAvailability)
    (blocked : List BlockedDateR) (tutorId year month : ℕ) (sessionType : String)
    (today : CalDate) : Except Err MonthCalendarResponse :=
  match tutors.find? fun t => decide (t.id = tutorId) with
  | none => .error .tutorNotFound
  | some tutor =>
    if sessionType = "group" ∧ tutor.offersGroup = false then
      .ok (emptyMonthResponse year month)
    else if sessionType = "private" ∧ tutor.offersPrivate = false then
      .ok (emptyMonthResponse year month)
    else
      match avails.find? fun a => decide (a.tutorId = tutorId) with
      | none => .ok (emptyMonthResponse year month)
      | some a =>
        let bs := blockedDatesFor blocked tutorId year month
        .ok { year := year
              month := month
              sessionDuration := a.sessionDuration
              bufferTime := a.bufferTime
              days := (List.range (monthLength year month)).map fun i =>
                publicCalendarDay a sessionType bs today year month (i + 1) }

/-! ## Derived observations used by the claims -/

/-- Number of non-cancelled bookings in the capacity bucket keyed by
(tutor, scheduledAt, durationMinutes, sessionType). -/
def bucketCount (db : DB) (tutorId scheduledAt durationMinutes : ℕ)
    (st : SessionType) : ℕ :=
  (db.bookings.filter fun b => decide
    (b.tutorId = tutorId ∧ b.scheduledAt = scheduledAt ∧
     b.durationMinutes = durationMinutes ∧ b.sessionType = st ∧
     b.status ≠ BookingStatus.cancelled)).length

/-- Payment records for one (student, tutor) pair, in creation order. -/
def paymentsFor (db : DB) (studentId tutorId : ℕ) : List Payment :=
  db.payments.filter fun p => decide (p.studentId = studentId ∧ p.tutorId = tutorId)

/-- Whether a `StudentTutorRelation` row exists for the pair. -/
def relExists (db : DB) (studentId tutorId : ℕ) : Bool :=
  (db.relations.find? fun r => decide (r.studentId = studentId ∧ r.tutorId = tutorId)).isSome

/-- Invariant tying the relation row to the first-booking flags of a
pair's payments: no payments while no relation row exists, and once
payments exist the first (and only the first) carries the flag. -/
def FirstFlagInv (db : DB) (studentId tutorId : ℕ) : Prop :=
  match paymentsFor db studentId tutorId with
  | [] => relExists db studentId tutorId = false
  | p :: rest =>
      relExists db studentId tutorId = true ∧ p.isFirstBooking = true ∧
      ∀ q ∈ rest, q.isFirstBooking = false

/-- One booking-creation attempt in a sequence: a failed attempt leaves
the state unchanged (the route raised before inserting anything). -/
def applyCreate (db : DB) (x : UserAcct × BookingCreate × Bool) : DB :=
  match createBooking db x.1 x.2.1 x.2.2 with
  | .ok (db', _) => db'
  | .error _ => db

/-- A sequence of booking-creation attempts. -/
def runCreates (db : DB) (xs : List (UserAcct × BookingCreate × Bool)) : DB :=
  xs.foldl applyCreate db

/-- Status of the (first) payment record of a booking, if any. -/
def paymentStatusOf (db : DB) (bookingId : ℕ) : Option PaymentStatus :=
  (db.payments.find? fun p => decide (p.bookingId = bookingId)).map (·.status)

/-- Extract the database from a booking-route result (identity fallback
on errors, matching "no state change on a raised `HTTPException`"). -/
def runDB (r : Except Err (DB × Booking)) (d : DB) : DB :=
  match r with
  | .ok p => p.1
  | .error _ => d

/-- Extract the saved booking from a confirm result. -/
def confirmResBooking (r : Except Err (DB × MeetSvc × ExtCal × Booking)) (d : Booking) : Booking :=
  match r with
  | .ok p => p.2.2.2
  | .error _ => d

/-- Extract the month-calendar response (empty fallback on errors). -/
def calRes (r : Except Err MonthCalendarResponse) : MonthCalendarResponse :=
  match r with
  | .ok m => m
  | .error _ => emptyMonthResponse 0 0

/-! ## Concrete fixtures for counterexamples and witnesses -/

/-- Platform settings with the default 5% commission and 0% student fee. -/
def exSettings : PlatformSettings :=
  { tutorCommissionRate := 5 / 100, studentPlatformFeeRate := 0 }

/-- A tutor profile offering both session kinds, with Google Calendar
connected. -/
def exTutor : TutorProfile :=
  { id := 10, userId := 20, hourlyRate := 100, groupHourlyRate := 80,
    email := some "tutor@example.com", fullName := some "Tut Or",
    offersPrivate := true, offersGroup := true,
    googleCalendarConnected := true, hasGoogleAccessToken := true }

/-- The tutor's user account. -/
def tutorUser : UserAcct := { id := 20, email := "tutor@example.com", fullName := "Tut Or" }

/-- First student. -/
def student1 : UserAcct := { id := 1, email := "s1@example.com", fullName := "Stu One" }

/-- Second student. -/
def student2 : UserAcct := { id := 2, email := "s2@example.com", fullName := "Stu Two" }

/-- An uninitialized platform Meet service (process start state). -/
def svc0 : MeetSvc := { inited := false, service := false }

/-- A pending private booking by student 1 with tutor 10 at instant 1000. -/
def pendingBooking1 : Booking :=
  { id := 100, studentId := 1, tutorId := 10, subject := "math",
    sessionType := SessionType.priv, scheduledAt := 1000, durationMinutes := 60,
    price := 100, currency := "INR", status := BookingStatus.pending,
    notes := none, meetingLink := none, googleEventId := none,
    studentName := some "Stu One", tutorName := some "Tut Or",
    studentEmail := some "s1@example.com", tutorEmail := some "tutor@example.com" }

/-- Creation request for the same private slot as `pendingBooking1`. -/
def privReq : BookingCreate :=
  { tutorId := 10, subject := "math", sessionType := SessionType.priv,
    scheduledAt := 1000, durationMinutes := 60, notes := none, currency := "INR" }

/-- Creation request for a group slot of tutor 10 at instant 2000. -/
def groupReq : BookingCreate :=
  { tutorId := 10, subject := "math", sessionType := SessionType.group,
    scheduledAt := 2000, durationMinutes := 60, notes := none, currency := "INR" }

/-- Database holding only the tutor (no bookings yet). -/
def emptyDb : DB :=
  { bookings := [], payments := [], relations := [], tutors := [exTutor],
    settings := exSettings, nextId := 200 }

/-- Database where student 1 already holds `pendingBooking1`. -/
def dbWithBooking1 : DB :=
  { bookings := [pendingBooking1], payments := [], relations := [],
    tutors := [exTutor], settings := exSettings, nextId := 101 }

/-- Availability record of tutor 10 with group capacity 1. -/
def exAvail : TutorAvailability :=
  { tutorId := 10, sessionDuration := 60, bufferTime := 0,
    isAcceptingStudents := true, weeklySchedule := [],
    privateWeeklySchedule := [("monday", [{ startTime := "09:00", endTime := "10:00" }])],
    groupWeeklySchedule := [("tuesday", [{ startTime := "18:00", endTime := "19:00" }])],
    groupSessionCapacity := 1 }

/-- State after student 1's group booking into the capacity-1 bucket. -/
def dbGroup1 : DB := runDB (createBooking emptyDb student1 groupReq false) emptyDb

/-- State after student 2 also books the same (already full) group bucket. -/
def dbGroup2 : DB := runDB (createBooking dbGroup1 student2 groupReq false) dbGroup1

/-! ## C5: fee computation algebra -/

/-- C5, counterexample: with the default rates (5% commission, 0% student
fee, both in [0,1]) and a session amount of 0.001 (not a whole number of
cents), `calculate_fees` rounds the derived `tutor_earnings` to 0, so the
claimed identity `tutorEarnings = sessionAmount − commissionFee` fails. -/
theorem c5_counterexample :
    ¬ ((calculateFees exSettings (1 / 1000) true).tutorEarnings =
        1 / 1000 - (calculateFees exSettings (1 / 1000) true).commissionFee) := by
  show ¬ (round2 (1 / 1000 - round2 (1 / 1000 * (getPlatformRates exSettings).1)) =
      1 / 1000 - round2 (1 / 1000 * (getPlatformRates exSettings).1))
  norm_num [getPlatformRates, exSettings, round2, round_eq]

/-- C5, amended: `calculate_fees` computes `commissionFee` and
`studentPlatformFee` as the 2-decimal roundings of the rate products
(rates clamped below at 0), and every derived field is rounded to two
decimals; consequently `totalPlatformFee = commissionFee +
studentPlatformFee` holds exactly, while `tutorEarnings = sessionAmount −
commissionFee`, `chargeAmount = sessionAmount + studentPlatformFee` and
the round-trip `tutorEarnings + commissionFee = sessionAmount` hold
exactly whenever the session amount is itself a whole number of cents
(and only up to rounding otherwise). -/
theorem c5_amended (s : PlatformSettings) (amount : ℚ) (isFirst : Bool) (f : Fees)
    (hf : f = calculateFees s amount isFirst) :
    f.commissionFee = round2 (amount * max 0 s.tutorCommissionRate) ∧
    f.studentPlatformFee = round2 (amount * max 0 s.studentPlatformFeeRate) ∧
    f.totalPlatformFee = f.commissionFee + f.studentPlatformFee ∧
    f.tutorEarnings = round2 (amount - f.commissionFee) ∧
    f.chargeAmount = round2 (amount + f.studentPlatformFee) ∧
    (IsCentMultiple amount →
      f.tutorEarnings = amount - f.commissionFee ∧
      f.chargeAmount = amount + f.studentPlatformFee ∧
      f.tutorEarnings + f.commissionFee = amount) := by
  subst hf
  refine ⟨rfl, rfl, ?_, rfl, rfl, ?_⟩
  · exact round2_eq_self ((isCentMultiple_round2 _).add (isCentMultiple_round2 _))
  · intro h
    have h1 : (calculateFees s amount isFirst).tutorEarnings =
        amount - (calculateFees s amount isFirst).commissionFee :=
      round2_eq_self (h.sub (isCentMultiple_round2 _))
    have h2 : (calculateFees s amount isFirst).chargeAmount =
        amount + (calculateFees s amount isFirst).studentPlatformFee :=
      round2_eq_self (h.add (isCentMultiple_round2 _))
    refine ⟨h1, h2, ?_⟩
    rw [h1]
    ring

/-- C5, witness: the amended identities at the concrete cent amount 1.23
with the default platform rates. -/
theorem c5_witness :
    IsCentMultiple (123 / 100 : ℚ) ∧
    (calculateFees exSettings (123 / 100) false).tutorEarnings +
      (calculateFees exSettings (123 / 100) false).commissionFee = 123 / 100 := by
  have hc : IsCentMultiple (123 / 100 : ℚ) := ⟨123, by norm_num⟩
  exact ⟨hc, ((c5_amended exSettings (123 / 100) false _ rfl).2.2.2.2.2 hc).2.2⟩

/-! ## C1: private-slot duplicate guard -/

lemma createBooking_guards_ok {db : DB} {user : UserAcct} {req : BookingCreate}
    {tutor : TutorProfile} (pf : Bool)
    (htutor : db.tutors.find? (fun t => decide (t.id = req.tutorId)) = some tutor)
    (hemail : user.email ≠ "")
    (hnodup : findDuplicate db user.id req = none) :
    createBooking db user req pf = .ok (insertBookingAndPay db user req tutor pf) := by
  unfold createBooking
  rw [htutor]
  simp [hemail, hnodup]

lemma createPayment_fst_bookings (db : DB) (bid sid tid : ℕ) (amt : ℚ) (cur : String) :
    (createPayment db bid sid tid amt cur).1.bookings = db.bookings := by
  unfold createPayment
  by_cases h : isFirstBookingCheck db.relations sid tid <;> simp [h]

lemma createPayment_fst_payments (db : DB) (bid sid tid : ℕ) (amt : ℚ) (cur : String) :
    (createPayment db bid sid tid amt cur).1.payments =
      db.payments ++ [(createPayment db bid sid tid amt cur).2] := by
  unfold createPayment
  by_cases h : isFirstBookingCheck db.relations sid tid <;> simp [h]

lemma createPayment_fst_relations (db : DB) (bid sid tid : ℕ) (amt : ℚ) (cur : String) :
    (createPayment db bid sid tid amt cur).1.relations =
      if isFirstBookingCheck db.relations sid tid then
        db.relations ++ [{ studentId := sid, tutorId := tid, firstBookingId := bid,
                           totalBookings := 1, totalSpent := amt }]
      else
        db.relations.map fun r =>
          if r.studentId = sid ∧ r.tutorId = tid then
            { r with totalBookings := r.totalBookings + 1, totalSpent := r.totalSpent + amt }
          else r := by
  unfold createPayment
  by_cases h : isFirstBookingCheck db.relations sid tid <;> simp [h]

lemma createPayment_snd (db : DB) (bid sid tid : ℕ) (amt : ℚ) (cur : String) :
    (createPayment db bid sid tid amt cur).2.bookingId = bid ∧
    (createPayment db bid sid tid amt cur).2.studentId = sid ∧
    (createPayment db bid sid tid amt cur).2.tutorId = tid ∧
    (createPayment db bid sid tid amt cur).2.isFirstBooking =
      isFirstBookingCheck db.relations sid tid ∧
    (createPayment db bid sid tid amt cur).2.status = PaymentStatus.pending := by
  unfold createPayment
  by_cases h : isFirstBookingCheck db.relations sid tid <;> simp [h]

lemma iba_snd (db : DB) (user : UserAcct) (req : BookingCreate) (tutor : TutorProfile)
    (pf : Bool) :
    (insertBookingAndPay db user req tutor pf).2 = newBooking db user req tutor := by
  cases pf <;> simp [insertBookingAndPay]

lemma iba_bookings (db : DB) (user : UserAcct) (req : BookingCreate) (tutor : TutorProfile)
    (pf : Bool) :
    (insertBookingAndPay db user req tutor pf).1.bookings =
      db.bookings ++ [newBooking db user req tutor] := by
  cases pf <;> simp [insertBookingAndPay, createPayment_fst_bookings]

lemma iba_payments_true (db : DB) (user : UserAcct) (req : BookingCreate)
    (tutor : TutorProfile) :
    (insertBookingAndPay db user req tutor true).1.payments = db.payments ∧
    (insertBookingAndPay db user req tutor true).1.relations = db.relations := by
  simp [insertBookingAndPay]

/-- C1, counterexample: the duplicate guard in `create_booking` filters on
`student_id`, so with student 1's non-cancelled private booking for the
(tutor 10, instant 1000, 60 min, private) tuple already present, a
request by student 2 for the identical tuple is accepted (not rejected
with `SlotTaken`), leaving two non-cancelled bookings in the bucket. -/
theorem c1_counterexample :
    (createBooking dbWithBooking1 student2 privReq false).isOk = true ∧
    bucketCount (runDB (createBooking dbWithBooking1 student2 privReq false) dbWithBooking1)
      10 1000 60 SessionType.priv = 2 := by
  exact ⟨rfl, rfl⟩

/-- C1, amended: the rejection applies only to the *same student*: when
the requesting student already holds a non-cancelled booking for the
identical (tutor, sessionType, scheduledAt, durationMinutes) tuple, the
request fails with the duplicate-booking error before any booking or
payment is inserted; a different student's booking does not block the
tuple. -/
theorem c1_amended (db : DB) (user : UserAcct) (req : BookingCreate) (pf : Bool)
    (tutor : TutorProfile)
    (htutor : db.tutors.find? (fun t => decide (t.id = req.tutorId)) = some tutor)
    (hemail : user.email ≠ "")
    (hdup : ∃ b ∈ db.bookings, b.studentId = user.id ∧ b.tutorId = req.tutorId ∧
      b.sessionType = req.sessionType ∧ b.scheduledAt = req.scheduledAt ∧
      b.durationMinutes = req.durationMinutes ∧ b.status ≠ BookingStatus.cancelled) :
    createBooking db user req pf = .error .alreadyBooked := by
  have hd : (findDuplicate db user.id req).isSome = true := by
    unfold findDuplicate
    rw [List.find?_isSome]
    obtain ⟨b, hb, h1, h2, h3, h4, h5, h6⟩ := hdup
    exact ⟨b, hb, by simp [h1, h2, h3, h4, h5, h6]⟩
  unfold createBooking
  rw [htutor]
  simp [hemail, hd]

/-- C1, witness: student 1 re-requesting their own slot is rejected. -/
theorem c1_witness :
    createBooking dbWithBooking1 student1 privReq false = .error .alreadyBooked :=
  c1_amended dbWithBooking1 student1 privReq false exTutor rfl (by decide)
    ⟨pendingBooking1, by simp [dbWithBooking1], by decide⟩

/-! ## C2: group capacity -/

/-- C2, counterexample: tutor 10's availability configures
`groupSessionCapacity = 1`, yet two different students' bookings into the
same (tutor 10, instant 2000, 60 min, group) bucket both succeed — the
reachable state `dbGroup2` holds 2 non-cancelled bookings in a
capacity-1 bucket and no `SlotFull` rejection occurred. -/
theorem c2_counterexample :
    exAvail.tutorId = 10 ∧ exAvail.groupSessionCapacity = 1 ∧
    (createBooking emptyDb student1 groupReq false).isOk = true ∧
    (createBooking dbGroup1 student2 groupReq false).isOk = true ∧
    bucketCount dbGroup2 10 2000 60 SessionType.group = 2 := by
  exact ⟨rfl, rfl, rfl, rfl, rfl⟩

/-- C2, amended: `create_booking` never consults the capacity bucket: even
when the number of non-cancelled bookings in a group bucket already
reaches (or exceeds) the tutor's configured `groupSessionCapacity`, a
request by a student without an active booking for the tuple succeeds and
grows the bucket by one; no `SlotFull` rejection exists in the code. -/
theorem c2_amended (db : DB) (user : UserAcct) (req : BookingCreate) (pf : Bool)
    (tutor : TutorProfile) (avail : TutorAvailability)
    (htutor : db.tutors.find? (fun t => decide (t.id = req.tutorId)) = some tutor)
    (hemail : user.email ≠ "")
    (hgroup : req.sessionType = SessionType.group)
    (hnodup : findDuplicate db user.id req = none)
    (hfull : avail.groupSessionCapacity ≤
      bucketCount db req.tutorId req.scheduledAt req.durationMinutes SessionType.group) :
    ∃ db' b, createBooking db user req pf = .ok (db', b) ∧
      bucketCount db' req.tutorId req.scheduledAt req.durationMinutes SessionType.group =
        bucketCount db req.tutorId req.scheduledAt req.durationMinutes SessionType.group + 1 := by
  refine ⟨(insertBookingAndPay db user req tutor pf).1,
          (insertBookingAndPay db user req tutor pf).2, ?_, ?_⟩
  · rw [createBooking_guards_ok pf htutor hemail hnodup]
  · simp [bucketCount, iba_bookings, List.filter_append, newBooking, hgroup]

/-- C2, witness: with the bucket already at the configured capacity 1,
student 2's request still succeeds and brings the bucket to 2. -/
theorem c2_witness :
    ∃ db' b, createBooking dbGroup1 student2 groupReq false = .ok (db', b) ∧
      bucketCount db' 10 2000 60 SessionType.group =
        bucketCount dbGroup1 10 2000 60 SessionType.group + 1 :=
  c2_amended dbGroup1 student2 groupReq false exTutor exAvail rfl (by decide) rfl rfl
    (by decide)

/-! ## C4: transactionality of creation -/

/-- C4, counterexample: a failure inside `payment_service.create_payment`
is caught and logged by `create_booking`, so the request still succeeds
and the freshly inserted `Booking` remains while no payment record
exists. -/
theorem c4_counterexample :
    (createBooking emptyDb student1 privReq true).isOk = true ∧
    (runDB (createBooking emptyDb student1 privReq true) emptyDb).bookings.length = 1 ∧
    (runDB (createBooking emptyDb student1 privReq true) emptyDb).payments = [] := by
  exact ⟨rfl, rfl, rfl⟩

/-- C4, amended: booking creation is not transactional: the `Booking` is
inserted first, and when payment creation fails the exception is
swallowed, leaving the booking in place with no `PaymentLedgerEntry` (and
relations untouched); when payment creation succeeds, booking and payment
are both appended.  No capacity reservation exists in either case. -/
theorem c4_amended (db : DB) (user : UserAcct) (req : BookingCreate)
    (tutor : TutorProfile)
    (htutor : db.tutors.find? (fun t => decide (t.id = req.tutorId)) = some tutor)
    (hemail : user.email ≠ "")
    (hnodup : findDuplicate db user.id req = none) :
    (∃ db' b, createBooking db user req true = .ok (db', b) ∧
      db'.bookings = db.bookings ++ [b] ∧ db'.payments = db.payments ∧
      db'.relations = db.relations) ∧
    (∃ db' b p, createBooking db user req false = .ok (db', b) ∧
      db'.bookings = db.bookings ++ [b] ∧ db'.payments = db.payments ++ [p] ∧
      p.bookingId = b.id ∧ p.status = PaymentStatus.pending) := by
  constructor
  · refine ⟨(insertBookingAndPay db user req tutor true).1,
            (insertBookingAndPay db user req tutor true).2, ?_, ?_, ?_, ?_⟩
    · rw [createBooking_guards_ok true htutor hemail hnodup]
    · rw [iba_bookings, iba_snd]
    · exact (iba_payments_true db user req tutor).1
    · exact (iba_payments_true db user req tutor).2
  · have hins : insertBookingAndPay db user req tutor false =
        ((createPayment
            { db with bookings := db.bookings ++ [newBooking db user req tutor],
                      nextId := db.nextId + 1 }
            (newBooking db user req tutor).id user.id req.tutorId
            (newBooking db user req tutor).price req.currency).1,
          newBooking db user req tutor) := by
      simp [insertBookingAndPay]
    refine ⟨(insertBookingAndPay db user req tutor false).1,
            (insertBookingAndPay db user req tutor false).2,
            (createPayment
              { db with bookings := db.bookings ++ [newBooking db user req tutor],
                        nextId := db.nextId + 1 }
              (newBooking db user req tutor).id user.id req.tutorId
              (newBooking db user req tutor).price req.currency).2,
            ?_, ?_, ?_, ?_, ?_⟩
    · rw [createBooking_guards_ok false htutor hemail hnodup]
    · rw [iba_bookings, iba_snd]
    · rw [hins]
      exact createPayment_fst_payments _ _ _ _ _ _
    · rw [iba_snd]
      exact (createPayment_snd _ _ _ _ _ _).1
    · exact (createPayment_snd _ _ _ _ _ _).2.2.2.2

/-- C4, witness: the degenerate transactionality at a concrete input — a
payment-side failure leaves student 1's booking behind with the payments
collection unchanged. -/
theorem c4_witness :
    ∃ db' b, createBooking emptyDb student1 privReq true = .ok (db', b) ∧
      db'.bookings = emptyDb.bookings ++ [b] ∧ db'.payments = emptyDb.payments ∧
      db'.relations = emptyDb.relations :=
  (c4_amended emptyDb student1 privReq exTutor rfl (by decide) rfl).1

/-! ## C6: first-booking flag -/

lemma find?_isSome_eq_any {α : Type} (l : List α) (p : α → Bool) :
    (l.find? p).isSome = l.any p := by
  induction l with
  | nil => rfl
  | cons a l ih => by_cases h : p a <;> simp [List.find?_cons, h, ih]

lemma relExists_any (db : DB) (s t : ℕ) :
    relExists db s t =
      db.relations.any fun r => decide (r.studentId = s ∧ r.tutorId = t) := by
  unfold relExists
  exact find?_isSome_eq_any _ _

lemma isFirstBookingCheck_eq (rels : List StudentTutorRelation) (s t : ℕ) :
    isFirstBookingCheck rels s t =
      !(rels.any fun r => decide (r.studentId = s ∧ r.tutorId = t)) := by
  unfold isFirstBookingCheck
  rw [← find?_isSome_eq_any]
  cases List.find? (fun r => decide (r.studentId = s ∧ r.tutorId = t)) rels <;> rfl

lemma paymentsFor_createPayment_match (db : DB) (bid : ℕ) (amt : ℚ) (cur : String)
    (s t : ℕ) :
    paymentsFor (createPayment db bid s t amt cur).1 s t =
      paymentsFor db s t ++ [(createPayment db bid s t amt cur).2] := by
  unfold paymentsFor
  rw [createPayment_fst_payments, List.filter_append]
  have h := createPayment_snd db bid s t amt cur
  simp [h.2.1, h.2.2.1]

lemma paymentsFor_createPayment_other (db : DB) (bid uid tid : ℕ) (amt : ℚ) (cur : String)
    (s t : ℕ) (hne : ¬(uid = s ∧ tid = t)) :
    paymentsFor (createPayment db bid uid tid amt cur).1 s t = paymentsFor db s t := by
  unfold paymentsFor
  rw [createPayment_fst_payments, List.filter_append]
  have h := createPayment_snd db bid uid tid amt cur
  have hp : (decide ((createPayment db bid uid tid amt cur).2.studentId = s ∧
      (createPayment db bid uid tid amt cur).2.tutorId = t)) = false := by
    rw [h.2.1, h.2.2.1]
    exact decide_eq_false hne
  have hnilf : List.filter (fun p2 => decide (p2.studentId = s ∧ p2.tutorId = t))
      [(createPayment db bid uid tid amt cur).2] = [] := by
    simp only [List.filter_cons, hp, List.filter_nil]
    rfl
  rw [hnilf, List.append_nil]

lemma relation_update_preserves_ids (uid tid : ℕ) (amt : ℚ) (s t : ℕ)
    (r : StudentTutorRelation) :
    (decide ((if r.studentId = uid ∧ r.tutorId = tid then
        { r with totalBookings := r.totalBookings + 1, totalSpent := r.totalSpent + amt }
      else r).studentId = s ∧
      (if r.studentId = uid ∧ r.tutorId = tid then
        { r with totalBookings := r.totalBookings + 1, totalSpent := r.totalSpent + amt }
      else r).tutorId = t)) = decide (r.studentId = s ∧ r.tutorId = t) := by
  by_cases h : r.studentId = uid ∧ r.tutorId = tid <;> simp [h]

lemma relExists_createPayment_match (db : DB) (bid : ℕ) (amt : ℚ) (cur : String)
    (s t : ℕ) :
    relExists (createPayment db bid s t amt cur).1 s t = true := by
  rw [relExists_any, createPayment_fst_relations]
  by_cases h : isFirstBookingCheck db.relations s t
  · simp [h, List.any_append]
  · rw [if_neg h, List.any_map]
    have hfun : ((fun r => decide (r.studentId = s ∧ r.tutorId = t)) ∘
        (fun r : StudentTutorRelation =>
          if r.studentId = s ∧ r.tutorId = t then
            { r with totalBookings := r.totalBookings + 1, totalSpent := r.totalSpent + amt }
          else r)) = fun r => decide (r.studentId = s ∧ r.tutorId = t) := by
      funext r
      exact relation_update_preserves_ids s t amt s t r
    rw [hfun, ← relExists_any]
    rw [isFirstBookingCheck_eq, ← relExists_any] at h
    simp at h
    exact h

lemma relExists_createPayment_other (db : DB) (bid uid tid : ℕ) (amt : ℚ) (cur : String)
    (s t : ℕ) (hne : ¬(uid = s ∧ tid = t)) :
    relExists (createPayment db bid uid tid amt cur).1 s t = relExists db s t := by
  rw [relExists_any, createPayment_fst_relations]
  by_cases h : isFirstBookingCheck db.relations uid tid
  · rw [if_pos h, List.any_append, ← relExists_any]
    simp only [List.any_cons, List.any_nil, Bool.or_false, decide_eq_false hne]
  · rw [if_neg h, List.any_map]
    have hfun : ((fun r => decide (r.studentId = s ∧ r.tutorId = t)) ∘
        (fun r : StudentTutorRelation =>
          if r.studentId = uid ∧ r.tutorId = tid then
            { r with totalBookings := r.totalBookings + 1, totalSpent := r.totalSpent + amt }
          else r)) = fun r => decide (r.studentId = s ∧ r.tutorId = t) := by
      funext r
      exact relation_update_preserves_ids uid tid amt s t r
    rw [hfun, ← relExists_any]

lemma firstFlagInv_createPayment (db : DB) (bid uid tid : ℕ) (amt : ℚ) (cur : String)
    (s t : ℕ) (h : FirstFlagInv db s t) :
    FirstFlagInv (createPayment db bid uid tid amt cur).1 s t := by
  by_cases hpair : uid = s ∧ tid = t
  · obtain ⟨rfl, rfl⟩ := hpair
    unfold FirstFlagInv at h ⊢
    rw [paymentsFor_createPayment_match, relExists_createPayment_match]
    have hflag := (createPayment_snd db bid uid tid amt cur).2.2.2.1
    cases hp : paymentsFor db uid tid with
    | nil =>
      rw [hp] at h
      simp only [hp, List.nil_append]
      refine ⟨by trivial, ?_, by intro q hq; cases hq⟩
      rw [hflag, isFirstBookingCheck_eq, ← relExists_any, h]
      rfl
    | cons p rest =>
      rw [hp] at h
      obtain ⟨hrel, hpfirst, hrest⟩ := h
      simp only [hp, List.cons_append]
      refine ⟨by trivial, hpfirst, ?_⟩
      intro q hq
      rcases List.mem_append.mp hq with hq | hq
      · exact hrest q hq
      · rw [List.mem_singleton] at hq
        subst hq
        rw [hflag, isFirstBookingCheck_eq, ← relExists_any, hrel]
        rfl
  · unfold FirstFlagInv at h ⊢
    rw [paymentsFor_createPayment_other db bid uid tid amt cur s t hpair,
        relExists_createPayment_other db bid uid tid amt cur s t hpair]
    exact h

lemma iba_fst_true (db : DB) (user : UserAcct) (req : BookingCreate) (tutor : TutorProfile) :
    (insertBookingAndPay db user req tutor true).1 =
      { db with bookings := db.bookings ++ [newBooking db user req tutor],
                nextId := db.nextId + 1 } := by
  simp [insertBookingAndPay]

lemma iba_fst_false (db : DB) (user : UserAcct) (req : BookingCreate) (tutor : TutorProfile) :
    (insertBookingAndPay db user req tutor false).1 =
      (createPayment
        { db with bookings := db.bookings ++ [newBooking db user req tutor],
                  nextId := db.nextId + 1 }
        (newBooking db user req tutor).id user.id req.tutorId
        (newBooking db user req tutor).price req.currency).1 := by
  simp [insertBookingAndPay]

lemma createBooking_ok_inv {db : DB} {user : UserAcct} {req : BookingCreate} {pf : Bool}
    {db' : DB} {b : Booking} (h : createBooking db user req pf = .ok (db', b)) :
    ∃ tutor, db.tutors.find? (fun t2 => decide (t2.id = req.tutorId)) = some tutor ∧
      db' = (insertBookingAndPay db user req tutor pf).1 ∧
      b = (insertBookingAndPay db user req tutor pf).2 := by
  unfold createBooking at h
  cases hfind : db.tutors.find? fun t2 => decide (t2.id = req.tutorId) with
  | none => rw [hfind] at h; cases h
  | some tutor =>
    rw [hfind] at h
    by_cases he : user.email = ""
    · simp [he] at h
    · by_cases hd : (findDuplicate db user.id req).isSome
      · simp [he, hd] at h
      · simp [he, hd] at h
        exact ⟨tutor, rfl, (congrArg Prod.fst h).symm, (congrArg Prod.snd h).symm⟩

lemma firstFlagInv_step (s t : ℕ) (db : DB) (x : UserAcct × BookingCreate × Bool)
    (h : FirstFlagInv db s t) : FirstFlagInv (applyCreate db x) s t := by
  unfold applyCreate
  cases hc : createBooking db x.1 x.2.1 x.2.2 with
  | error e => exact h
  | ok p =>
    obtain ⟨db', b⟩ := p
    obtain ⟨tutor, hfind, hdb, hb⟩ := createBooking_ok_inv hc
    show FirstFlagInv db' s t
    rw [hdb]
    cases hpf : x.2.2
    · rw [iba_fst_false]
      exact firstFlagInv_createPayment _ _ _ _ _ _ s t h
    · rw [iba_fst_true]
      exact h

lemma firstFlagInv_runCreates (s t : ℕ) (xs : List (UserAcct × BookingCreate × Bool)) :
    ∀ db : DB, FirstFlagInv db s t → FirstFlagInv (runCreates db xs) s t := by
  induction xs with
  | nil => intro db h; exact h
  | cons x xs ih => intro db h; exact ih _ (firstFlagInv_step s t db x h)

lemma countFirst_le_one (db : DB) (s t : ℕ) (h : FirstFlagInv db s t) :
    ((paymentsFor db s t).filter fun p => p.isFirstBooking).length ≤ 1 := by
  unfold FirstFlagInv at h
  cases hp : paymentsFor db s t with
  | nil => simp [hp]
  | cons p rest =>
    rw [hp] at h
    obtain ⟨-, hpf, hrest⟩ := h
    have hnil : (rest.filter fun p2 => p2.isFirstBooking) = [] := by
      rw [List.filter_eq_nil_iff]
      intro a ha
      simp [hrest a ha]
    simp [List.filter_cons, hpf, hnil]

/-- C6: `is_first_booking` is decided by the absence of a
`StudentTutorRelation` row at booking-creation time; the relation row is
created (or incremented) immediately at creation while the payment is
still `pending`; and across any sequence of booking creations, exactly
the first payment record of a (student, tutor) pair carries
`isFirstBooking = true` (its invariant `FirstFlagInv` is preserved, so
at most one flagged payment ever exists and it is the head of the pair's
payment list). -/
theorem c6_first_booking_flag (s t : ℕ) (db : DB) (h : FirstFlagInv db s t) :
    (∀ xs, FirstFlagInv (runCreates db xs) s t) ∧
    (∀ xs, ((paymentsFor (runCreates db xs) s t).filter fun p => p.isFirstBooking).length ≤ 1) ∧
    (∀ user req db' b, user.id = s → req.tutorId = t →
      createBooking db user req false = .ok (db', b) →
      relExists db' s t = true ∧
      ∃ p, paymentsFor db' s t = paymentsFor db s t ++ [p] ∧
        p.isFirstBooking = !(relExists db s t) ∧ p.status = PaymentStatus.pending) := by
  refine ⟨fun xs => firstFlagInv_runCreates s t xs db h,
          fun xs => countFirst_le_one _ s t (firstFlagInv_runCreates s t xs db h),
          ?_⟩
  intro user req db' b hs ht hok
  subst hs; subst ht
  obtain ⟨tutor, hfind, hdb, hb⟩ := createBooking_ok_inv hok
  subst hdb
  rw [iba_fst_false]
  constructor
  · exact relExists_createPayment_match _ _ _ _ _ _
  · refine ⟨_, paymentsFor_createPayment_match _ _ _ _ _ _, ?_, ?_⟩
    · have hflag := (createPayment_snd
        { db with bookings := db.bookings ++ [newBooking db user req tutor],
                  nextId := db.nextId + 1 }
        (newBooking db user req tutor).id user.id req.tutorId
        (newBooking db user req tutor).price req.currency).2.2.2.1
      rw [hflag, isFirstBookingCheck_eq]
      rw [relExists_any]
    · exact (createPayment_snd _ _ _ _ _ _).2.2.2.2

/-- C6, witness: starting from the empty database (where `FirstFlagInv`
holds for the pair (student 1, tutor 10)), two successive creations by
student 1 leave at most one flagged payment for the pair. -/
theorem c6_witness :
    ((paymentsFor (runCreates emptyDb
        [(student1, privReq, false), (student1, groupReq, false)]) 1 10).filter
      fun p => p.isFirstBooking).length ≤ 1 :=
  (c6_first_booking_flag 1 10 emptyDb (by exact rfl)).2.1
    [(student1, privReq, false), (student1, groupReq, false)]

/-! ## Confirm-flow characterization lemmas -/

lemma confirmBooking_eq {db : DB} {svc : MeetSvc} {cal : ExtCal} {user : UserAcct}
    {bookingId : ℕ} {tApi : ApiOutcome} {aApi : AttendOutcome} {cfg : Bool}
    {pApi : ApiOutcome} {booking : Booking} {tutor : TutorProfile}
    (hfb : db.bookings.find? (fun b => decide (b.id = bookingId)) = some booking)
    (hft : db.tutors.find? (fun t2 => decide (t2.userId = user.id)) = some tutor)
    (hid : tutor.id = booking.tutorId)
    (hst : booking.status ≠ BookingStatus.confirmed)
    (hem : strTruthy booking.studentEmail = true) :
    confirmBooking db svc cal user bookingId tApi aApi cfg pApi =
      .ok (confirmCore db svc cal booking tutor bookingId tApi aApi cfg pApi) := by
  unfold confirmBooking
  rw [hfb, hft]
  simp [hid, hst, hem]

lemma confirmCore_noReuse {db : DB} (svc : MeetSvc) (cal : ExtCal) {booking : Booking}
    (tutor : TutorProfile) (bookingId : ℕ) (tApi : ApiOutcome) (aApi : AttendOutcome)
    (cfg : Bool) (pApi : ApiOutcome)
    (hpath : booking.sessionType = SessionType.priv ∨
      findExistingGroupBooking db booking = none) :
    confirmCore db svc cal booking tutor bookingId tApi aApi cfg pApi =
      confirmFinish db svc bookingId cfg pApi
        (createMeetEventForTutor tutor tApi cal).1 booking
        (createMeetEventForTutor tutor tApi cal).2 := by
  unfold confirmCore
  rcases hpath with h | h
  · rw [h]
    simp
  · by_cases hg : booking.sessionType = SessionType.group
    · rw [hg, if_pos rfl, h]
    · rw [if_neg hg]

lemma confirmCore_reuse {db : DB} (svc : MeetSvc) (cal : ExtCal) {booking : Booking}
    (tutor : TutorProfile) (bookingId : ℕ) (tApi : ApiOutcome) (aApi : AttendOutcome)
    (cfg : Bool) (pApi : ApiOutcome) {existing : Booking} {eid : String}
    (hgroup : booking.sessionType = SessionType.group)
    (hex : findExistingGroupBooking db booking = some existing)
    (heid : existing.googleEventId = some eid) :
    confirmCore db svc cal booking tutor bookingId tApi aApi cfg pApi =
      confirmFinish db svc bookingId cfg pApi
        (addAttendeeToEventForTutor tutor eid aApi)
        { booking with googleEventId := existing.googleEventId,
                       meetingLink := pyOr existing.meetingLink
                         (addAttendeeToEventForTutor tutor eid aApi).meetLink }
        cal := by
  unfold confirmCore
  rw [hgroup, if_pos rfl, hex]
  simp [heid]

lemma createMeetEventForTutor_degraded {tutor : TutorProfile} {tApi : ApiOutcome}
    (cal : ExtCal)
    (h : tutor.googleCalendarConnected = false ∨ tutor.hasGoogleAccessToken = false ∨
      tApi = ApiOutcome.fail) :
    createMeetEventForTutor tutor tApi cal =
      ({ eventId := none, meetLink := none, status := MeetStatus.pendingMeetLink }, cal) := by
  unfold createMeetEventForTutor
  rcases h with h | h | h
  · simp [h]
  · simp [h]
  · subst h
    by_cases h1 : tutor.googleCalendarConnected <;>
      by_cases h2 : tutor.hasGoogleAccessToken <;> simp [h1, h2]

lemma createMeetEventForTutor_ok {tutor : TutorProfile} (cal : ExtCal)
    (e : String) (l : Option String)
    (h1 : tutor.googleCalendarConnected = true) (h2 : tutor.hasGoogleAccessToken = true) :
    createMeetEventForTutor tutor (ApiOutcome.ok e l) cal =
      ({ eventId := some e, meetLink := l, status := MeetStatus.created }, cal ++ [e]) := by
  unfold createMeetEventForTutor
  simp [h1, h2]

lemma addAttendee_ok {tutor : TutorProfile} (eid : String) (l : Option String)
    (h1 : tutor.googleCalendarConnected = true) (h2 : tutor.hasGoogleAccessToken = true) :
    addAttendeeToEventForTutor tutor eid (AttendOutcome.ok l) =
      { eventId := some eid, meetLink := l, status := MeetStatus.updated } := by
  unfold addAttendeeToEventForTutor
  simp [h1, h2]

lemma platformCreateMeetEvent_noService {svc : MeetSvc} {cfg : Bool} (pApi : ApiOutcome)
    (cal : ExtCal) (h : (ensureInit svc cfg).service = false) :
    platformCreateMeetEvent svc cfg pApi cal =
      (ensureInit svc cfg,
       { eventId := none, meetLink := none, status := MeetStatus.pendingMeetLink }, cal) := by
  unfold platformCreateMeetEvent
  simp [h]

lemma platformCreateMeetEvent_fail {svc : MeetSvc} {cfg : Bool} (cal : ExtCal) :
    platformCreateMeetEvent svc cfg ApiOutcome.fail cal =
      (ensureInit svc cfg,
       { eventId := none, meetLink := none, status := MeetStatus.pendingMeetLink }, cal) := by
  unfold platformCreateMeetEvent
  by_cases h : (ensureInit svc cfg).service <;> simp [h]

lemma platformCreateMeetEvent_ok {svc : MeetSvc} {cfg : Bool} (cal : ExtCal)
    (e : String) (l : Option String) (h : (ensureInit svc cfg).service = true) :
    platformCreateMeetEvent svc cfg (ApiOutcome.ok e l) cal =
      (ensureInit svc cfg,
       { eventId := some e, meetLink := l, status := MeetStatus.created }, cal ++ [e]) := by
  unfold platformCreateMeetEvent
  simp [h]

lemma confirmFinish_booking_status (db : DB) (svc : MeetSvc) (bookingId : ℕ) (cfg : Bool)
    (pApi : ApiOutcome) (mr1 : MeetResult) (b1 : Booking) (cal : ExtCal) :
    (confirmFinish db svc bookingId cfg pApi mr1 b1 cal).2.2.2.status =
      BookingStatus.confirmed := by
  unfold confirmFinish
  by_cases h : mr1.status = MeetStatus.pendingMeetLink <;> simp [h]

lemma confirmFinish_pending (db : DB) (svc : MeetSvc) (bookingId : ℕ) (cfg : Bool)
    (pApi : ApiOutcome) (mr1 : MeetResult) (b1 : Booking) (cal : ExtCal)
    (h : mr1.status = MeetStatus.pendingMeetLink) :
    confirmFinish db svc bookingId cfg pApi mr1 b1 cal =
      (let pr := platformCreateMeetEvent svc cfg pApi cal
       let b3 := { b1 with status := BookingStatus.confirmed,
                           meetingLink := pyOr b1.meetingLink pr.2.1.meetLink,
                           googleEventId := pyOr b1.googleEventId pr.2.1.eventId }
       (completePaymentForBooking { db with bookings := saveBooking db.bookings b3 } bookingId,
        pr.1, pr.2.2, b3)) := by
  unfold confirmFinish
  rw [if_pos h]

lemma confirmFinish_notPending (db : DB) (svc : MeetSvc) (bookingId : ℕ) (cfg : Bool)
    (pApi : ApiOutcome) (mr1 : MeetResult) (b1 : Booking) (cal : ExtCal)
    (h : mr1.status ≠ MeetStatus.pendingMeetLink) :
    confirmFinish db svc bookingId cfg pApi mr1 b1 cal =
      (let b3 := { b1 with status := BookingStatus.confirmed,
                           meetingLink := pyOr b1.meetingLink mr1.meetLink,
                           googleEventId := pyOr b1.googleEventId mr1.eventId }
       (completePaymentForBooking { db with bookings := saveBooking db.bookings b3 } bookingId,
        svc, cal, b3)) := by
  unfold confirmFinish
  rw [if_neg h]

lemma completePaymentForBooking_status (db : DB) (bookingId : ℕ)
    (h : (db.payments.find? fun p => decide (p.bookingId = bookingId)).isSome = true) :
    paymentStatusOf (completePaymentForBooking db bookingId) bookingId =
      some PaymentStatus.completed := by
  unfold completePaymentForBooking paymentStatusOf
  cases hf : db.payments.find? fun p => decide (p.bookingId = bookingId) with
  | none => rw [hf] at h; cases h
  | some pay =>
    have hcomp : ((fun p => decide (p.bookingId = bookingId)) ∘
        (fun p : Payment =>
          if p.id = pay.id then { p with status := PaymentStatus.completed } else p)) =
        fun p => decide (p.bookingId = bookingId) := by
      funext p
      by_cases hp : p.id = pay.id <;> simp [hp]
    show Option.map (fun x => x.status)
        (List.find? (fun p => decide (p.bookingId = bookingId))
          (db.payments.map fun p =>
            if p.id = pay.id then { p with status := PaymentStatus.completed } else p)) =
      some PaymentStatus.completed
    rw [List.find?_map, hcomp, hf]
    simp

lemma completePaymentForBooking_bookings (db : DB) (bookingId : ℕ) :
    (completePaymentForBooking db bookingId).bookings = db.bookings := by
  unfold completePaymentForBooking
  cases db.payments.find? fun p => decide (p.bookingId = bookingId) <;> simp

lemma pyOr_none_left (b : Option String) : pyOr none b = b := rfl

lemma pyOr_idem (a : Option String) : pyOr a a = a := by
  unfold pyOr
  by_cases h : strTruthy a <;> simp [h]

lemma confirmCore_status (db : DB) (svc : MeetSvc) (cal : ExtCal) (booking : Booking)
    (tutor : TutorProfile) (bookingId : ℕ) (tApi : ApiOutcome) (aApi : AttendOutcome)
    (cfg : Bool) (pApi : ApiOutcome) :
    (confirmCore db svc cal booking tutor bookingId tApi aApi cfg pApi).2.2.2.status =
      BookingStatus.confirmed := by
  unfold confirmCore
  by_cases hg : booking.sessionType = SessionType.group
  · rw [if_pos hg]
    cases hfe : findExistingGroupBooking db booking with
    | none => simp [confirmFinish_booking_status]
    | some ex =>
      cases hei : ex.googleEventId with
      | none => simp [hei, confirmFinish_booking_status]
      | some eid => simp [hei, confirmFinish_booking_status]
  · rw [if_neg hg]
    simp [confirmFinish_booking_status]

lemma cancelBooking_ok_eq {db : DB} {user : UserAcct} {bookingId : ℕ} {booking : Booking}
    (hb : db.bookings.find? (fun x => decide (x.id = bookingId)) = some booking)
    (hna : ¬(booking.studentId ≠ user.id ∧
      (db.tutors.find? fun t => decide (t.userId = user.id)).map (·.id) ≠
        some booking.tutorId))
    (hst : booking.status ≠ BookingStatus.cancelled) :
    cancelBooking db user bookingId = .ok (cancelCore db booking) := by
  unfold cancelBooking
  rw [hb]
  simp only [if_neg hna, if_neg hst]

lemma cancelBooking_already {db : DB} {user : UserAcct} {bookingId : ℕ} {booking : Booking}
    (hb : db.bookings.find? (fun x => decide (x.id = bookingId)) = some booking)
    (hna : ¬(booking.studentId ≠ user.id ∧
      (db.tutors.find? fun t => decide (t.userId = user.id)).map (·.id) ≠
        some booking.tutorId))
    (hst : booking.status = BookingStatus.cancelled) :
    cancelBooking db user bookingId = .error .alreadyCancelled := by
  unfold cancelBooking
  rw [hb]
  simp only [if_neg hna, if_pos hst]

lemma updateBooking_ok_eq {db : DB} {user : UserAcct} {bookingId : ℕ} {booking : Booking}
    (upd : BookingUpdate)
    (hb : db.bookings.find? (fun x => decide (x.id = bookingId)) = some booking)
    (hna : ¬(booking.studentId ≠ user.id ∧ booking.tutorId ≠ user.id)) :
    updateBooking db user bookingId upd = .ok (updateCore db booking upd) := by
  unfold updateBooking
  rw [hb]
  simp only [if_neg hna]

/-! ## C3: booking status transitions -/

/-- A cancelled copy of the pending booking, under a fresh id. -/
def cancelledBooking : Booking :=
  { pendingBooking1 with id := 110, status := BookingStatus.cancelled }

/-- Database holding only the cancelled booking. -/
def dbCancelled : DB :=
  { bookings := [cancelledBooking], payments := [], relations := [],
    tutors := [exTutor], settings := exSettings, nextId := 111 }

/-- C3, counterexample: `confirm_booking` only rejects already-confirmed
bookings, so the tutor can confirm a *cancelled* booking — the illegal
transition Cancelled→Confirmed succeeds instead of failing with
`InvalidTransition`. -/
theorem c3_counterexample :
    cancelledBooking.status = BookingStatus.cancelled ∧
    (confirmBooking dbCancelled svc0 [] tutorUser 110 (ApiOutcome.ok "E1" (some "L1"))
      AttendOutcome.fail true ApiOutcome.fail).isOk = true ∧
    (confirmResBooking
      (confirmBooking dbCancelled svc0 [] tutorUser 110 (ApiOutcome.ok "E1" (some "L1"))
        AttendOutcome.fail true ApiOutcome.fail) cancelledBooking).status =
      BookingStatus.confirmed := by
  exact ⟨rfl, rfl, rfl⟩

/-- C3, amended: the only transition guards are `AlreadyConfirmed` on
confirm and `AlreadyCancelled` on cancel: confirm moves a booking of any
other status (pending, cancelled or completed) to Confirmed, cancel moves
any other status (pending, confirmed or completed) to Cancelled, and the
generic update endpoint writes any requested status unconditionally; no
`InvalidTransition` check exists. -/
theorem c3_amended (db : DB) (b : Booking)
    (hb : db.bookings.find? (fun x => decide (x.id = b.id)) = some b) :
    (∀ svc cal (user : UserAcct) tutor tApi aApi cfg pApi,
      db.tutors.find? (fun t2 => decide (t2.userId = user.id)) = some tutor →
      tutor.id = b.tutorId → strTruthy b.studentEmail = true →
      ((b.status ≠ BookingStatus.confirmed →
        ∃ r, confirmBooking db svc cal user b.id tApi aApi cfg pApi = .ok r ∧
          r.2.2.2.status = BookingStatus.confirmed) ∧
       (b.status = BookingStatus.confirmed →
        confirmBooking db svc cal user b.id tApi aApi cfg pApi =
          .error .alreadyConfirmed))) ∧
    (∀ user : UserAcct,
      (b.studentId = user.id ∨
        (db.tutors.find? fun t2 => decide (t2.userId = user.id)).map (·.id) =
          some b.tutorId) →
      ((b.status ≠ BookingStatus.cancelled →
        ∃ r, cancelBooking db user b.id = .ok r ∧
          r.2.status = BookingStatus.cancelled) ∧
       (b.status = BookingStatus.cancelled →
        cancelBooking db user b.id = .error .alreadyCancelled))) ∧
    (∀ (user : UserAcct) upd s2,
      (b.studentId = user.id ∨ b.tutorId = user.id) → upd.status = some s2 →
      ∃ r, updateBooking db user b.id upd = .ok r ∧ r.2.status = s2) := by
  refine ⟨?_, ?_, ?_⟩
  · intro svc cal user tutor tApi aApi cfg pApi hft hid hem
    constructor
    · intro hst
      rw [confirmBooking_eq hb hft hid hst hem]
      exact ⟨_, rfl, confirmCore_status db svc cal b tutor b.id tApi aApi cfg pApi⟩
    · intro hst
      unfold confirmBooking
      rw [hb, hft]
      simp [hid, hst]
  · intro user hauth
    have hna : ¬(b.studentId ≠ user.id ∧
        (db.tutors.find? fun t2 => decide (t2.userId = user.id)).map (·.id) ≠
          some b.tutorId) := by
      rcases hauth with h | h
      · exact fun hc => hc.1 h
      · exact fun hc => hc.2 h
    constructor
    · intro hst
      rw [cancelBooking_ok_eq hb hna hst]
      exact ⟨_, rfl, rfl⟩
    · intro hst
      exact cancelBooking_already hb hna hst
  · intro user upd s2 hauth hupd
    have hna : ¬(b.studentId ≠ user.id ∧ b.tutorId ≠ user.id) := by
      rcases hauth with h | h
      · exact fun hc => hc.1 h
      · exact fun hc => hc.2 h
    rw [updateBooking_ok_eq upd hb hna]
    refine ⟨_, rfl, ?_⟩
    show (upd.status.getD b.status) = s2
    simp [hupd]

/-- C3, witness: via the generic update endpoint the student rewrites the
cancelled booking's status straight to Completed. -/
theorem c3_witness :
    ∃ r, updateBooking dbCancelled student1 110
      { status := some BookingStatus.completed, scheduledAt := none,
        notes := none, meetingLink := none } = .ok r ∧
      r.2.status = BookingStatus.completed :=
  (c3_amended dbCancelled cancelledBooking rfl).2.2 student1 _ BookingStatus.completed
    (Or.inl rfl) rfl

/-- A pending payment record for booking 100. -/
def pendingPayment1 : Payment :=
  { id := 300, bookingId := 100, studentId := 1, tutorId := 10,
    sessionAmount := 100, currency := "INR", admissionFee := 0,
    commissionFee := 5, studentPlatformFee := 0, totalPlatformFee := 5,
    tutorEarnings := 95, chargeAmount := 100, tutorCommissionRate := 5 / 100,
    studentPlatformFeeRate := 0, isFirstBooking := true,
    status := PaymentStatus.pending }

/-- Like `dbWithBooking1` but with the booking's payment record present. -/
def dbWithPayment : DB := { dbWithBooking1 with payments := [pendingPayment1] }

/-! ## C7: degraded provider during confirmation -/

/-- C7, counterexample: with the tutor's token refresh failing (tutor
connected, API call raises) the tutor-scoped attempt degrades, but the
platform-level fallback service is configured and produces a link — the
confirm succeeds with `meetingLink = "PL"`, not the `null` the claim
requires. -/
theorem c7_counterexample :
    (confirmBooking dbWithBooking1 svc0 [] tutorUser 100 ApiOutcome.fail
      AttendOutcome.fail true (ApiOutcome.ok "PE" (some "PL"))).isOk = true ∧
    (confirmResBooking
      (confirmBooking dbWithBooking1 svc0 [] tutorUser 100 ApiOutcome.fail
        AttendOutcome.fail true (ApiOutcome.ok "PE" (some "PL")))
      pendingBooking1).meetingLink = some "PL" := by
  exact ⟨rfl, rfl⟩

/-- C7, amended: when the tutor-scoped provisioning degrades (provider
not connected, missing token, or a raised refresh/API error), confirm
still succeeds: the booking transitions to Confirmed and its ledger entry
is finalized to completed; the stored `meetingLink` is `null` only when
the platform-level fallback also fails to produce a link, and is the
fallback's link otherwise. -/
theorem c7_amended (db : DB) (svc : MeetSvc) (cal : ExtCal) (user : UserAcct)
    (booking : Booking) (tutor : TutorProfile) (tApi : ApiOutcome) (aApi : AttendOutcome)
    (cfg : Bool) (pApi : ApiOutcome)
    (hfb : db.bookings.find? (fun x => decide (x.id = booking.id)) = some booking)
    (hft : db.tutors.find? (fun t2 => decide (t2.userId = user.id)) = some tutor)
    (hid : tutor.id = booking.tutorId)
    (hst : booking.status ≠ BookingStatus.confirmed)
    (hem : strTruthy booking.studentEmail = true)
    (hml : booking.meetingLink = none)
    (hev : booking.googleEventId = none)
    (hpath : booking.sessionType = SessionType.priv ∨
      findExistingGroupBooking db booking = none)
    (hdeg : tutor.googleCalendarConnected = false ∨ tutor.hasGoogleAccessToken = false ∨
      tApi = ApiOutcome.fail)
    (hpay : (db.payments.find? fun p => decide (p.bookingId = booking.id)).isSome = true) :
    ∃ r, confirmBooking db svc cal user booking.id tApi aApi cfg pApi = .ok r ∧
      r.2.2.2.status = BookingStatus.confirmed ∧
      paymentStatusOf r.1 booking.id = some PaymentStatus.completed ∧
      ((ensureInit svc cfg).service = false ∨ pApi = ApiOutcome.fail →
        r.2.2.2.meetingLink = none) ∧
      (∀ e l, (ensureInit svc cfg).service = true → pApi = ApiOutcome.ok e l →
        r.2.2.2.meetingLink = l ∧ r.2.2.2.googleEventId = some e) := by
  rw [confirmBooking_eq hfb hft hid hst hem]
  have heq : confirmCore db svc cal booking tutor booking.id tApi aApi cfg pApi =
      confirmFinish db svc booking.id cfg pApi
        { eventId := none, meetLink := none, status := MeetStatus.pendingMeetLink }
        booking cal := by
    rw [confirmCore_noReuse svc cal tutor booking.id tApi aApi cfg pApi hpath,
        createMeetEventForTutor_degraded cal hdeg]
  have hfin := confirmFinish_pending db svc booking.id cfg pApi
    { eventId := none, meetLink := none, status := MeetStatus.pendingMeetLink }
    booking cal rfl
  rw [heq, hfin]
  refine ⟨_, rfl, rfl, ?_, ?_, ?_⟩
  · show paymentStatusOf (completePaymentForBooking _ booking.id) booking.id =
      some PaymentStatus.completed
    exact completePaymentForBooking_status _ _ hpay
  · intro hor
    show pyOr booking.meetingLink
        (platformCreateMeetEvent svc cfg pApi cal).2.1.meetLink = none
    rcases hor with h | h
    · rw [platformCreateMeetEvent_noService pApi cal h, hml]
      rfl
    · subst h
      rw [platformCreateMeetEvent_fail cal, hml]
      rfl
  · intro e l hs hp
    subst hp
    rw [platformCreateMeetEvent_ok cal e l hs]
    constructor
    · show pyOr booking.meetingLink l = l
      rw [hml]
      rfl
    · show pyOr booking.googleEventId (some e) = some e
      rw [hev]
      rfl

/-- C7, witness: tutor-scoped refresh failure with the platform fallback
also unconfigured — the booking confirms with a null link and the payment
record completes. -/
theorem c7_witness :
    ∃ r, confirmBooking
        dbWithPayment
        svc0 [] tutorUser 100 ApiOutcome.fail AttendOutcome.fail false ApiOutcome.fail =
        .ok r ∧
      r.2.2.2.status = BookingStatus.confirmed ∧
      paymentStatusOf r.1 100 = some PaymentStatus.completed ∧
      r.2.2.2.meetingLink = none := by
  obtain ⟨r, h1, h2, h3, h4, -⟩ := c7_amended
    dbWithPayment
    svc0 [] tutorUser pendingBooking1 exTutor ApiOutcome.fail AttendOutcome.fail
    false ApiOutcome.fail rfl rfl rfl (by decide) rfl rfl rfl (Or.inl rfl)
    (Or.inr (Or.inr rfl)) rfl
  exact ⟨r, h1, h2, h3, h4 (Or.inl rfl)⟩

/-! ## C10: process-global platform fallback service -/

lemma ensureInit_inited (svc : MeetSvc) (cfg : Bool) : (ensureInit svc cfg).inited = true := by
  unfold ensureInit
  by_cases h : svc.inited <;> simp [h]

lemma ensureInit_fresh {svc : MeetSvc} (cfg : Bool) (h : svc.inited = false) :
    (ensureInit svc cfg).service = cfg := by
  unfold ensureInit
  simp [h]

lemma ensureInit_already {svc : MeetSvc} (cfg : Bool) (h : svc.inited = true) :
    ensureInit svc cfg = svc := by
  unfold ensureInit
  simp [h]

lemma platformCreateMeetEvent_fst (svc : MeetSvc) (cfg : Bool) (pApi : ApiOutcome)
    (cal : ExtCal) : (platformCreateMeetEvent svc cfg pApi cal).1 = ensureInit svc cfg := by
  unfold platformCreateMeetEvent
  by_cases h : (ensureInit svc cfg).service
  · cases pApi <;> simp [h]
  · simp [h]

/-- C10: during confirmation, when the tutor-scoped provisioning degrades
to `pending_meet_link`, a second attempt is made through the
process-global `google_meet_service` — lazily initialized on first use
(its `inited` flag becomes true; a fresh service takes the deployment
configuration, an already-initialized one is reused as-is) — and the
booking's `meetingLink`/`google_event_id` are the fallback attempt's
outputs; when the tutor-scoped attempt succeeds, the global service is
never touched and the values come from the first attempt. -/
theorem c10_platform_fallback (db : DB) (svc : MeetSvc) (cal : ExtCal) (user : UserAcct)
    (booking : Booking) (tutor : TutorProfile) (tApi : ApiOutcome) (aApi : AttendOutcome)
    (cfg : Bool) (pApi : ApiOutcome)
    (hfb : db.bookings.find? (fun x => decide (x.id = booking.id)) = some booking)
    (hft : db.tutors.find? (fun t2 => decide (t2.userId = user.id)) = some tutor)
    (hid : tutor.id = booking.tutorId)
    (hst : booking.status ≠ BookingStatus.confirmed)
    (hem : strTruthy booking.studentEmail = true)
    (hml : booking.meetingLink = none)
    (hev : booking.googleEventId = none)
    (hpath : booking.sessionType = SessionType.priv ∨
      findExistingGroupBooking db booking = none) :
    ((tutor.googleCalendarConnected = false ∨ tutor.hasGoogleAccessToken = false ∨
        tApi = ApiOutcome.fail) →
      ∃ r, confirmBooking db svc cal user booking.id tApi aApi cfg pApi = .ok r ∧
        r.2.1 = ensureInit svc cfg ∧
        r.2.1.inited = true ∧
        (svc.inited = false → r.2.1.service = cfg) ∧
        (svc.inited = true → r.2.1 = svc) ∧
        r.2.2.2.meetingLink = (platformCreateMeetEvent svc cfg pApi cal).2.1.meetLink ∧
        r.2.2.2.googleEventId = (platformCreateMeetEvent svc cfg pApi cal).2.1.eventId) ∧
    (∀ e l, tutor.googleCalendarConnected = true → tutor.hasGoogleAccessToken = true →
      tApi = ApiOutcome.ok e l →
      ∃ r, confirmBooking db svc cal user booking.id tApi aApi cfg pApi = .ok r ∧
        r.2.1 = svc ∧ r.2.2.2.meetingLink = l ∧ r.2.2.2.googleEventId = some e ∧
        r.2.2.1 = cal ++ [e]) := by
  constructor
  · intro hdeg
    rw [confirmBooking_eq hfb hft hid hst hem]
    have heq : confirmCore db svc cal booking tutor booking.id tApi aApi cfg pApi =
        confirmFinish db svc booking.id cfg pApi
          { eventId := none, meetLink := none, status := MeetStatus.pendingMeetLink }
          booking cal := by
      rw [confirmCore_noReuse svc cal tutor booking.id tApi aApi cfg pApi hpath,
          createMeetEventForTutor_degraded cal hdeg]
    have hfin := confirmFinish_pending db svc booking.id cfg pApi
      { eventId := none, meetLink := none, status := MeetStatus.pendingMeetLink }
      booking cal rfl
    rw [heq, hfin]
    refine ⟨_, rfl, platformCreateMeetEvent_fst svc cfg pApi cal, ?_, ?_, ?_, ?_, ?_⟩
    · show (platformCreateMeetEvent svc cfg pApi cal).1.inited = true
      rw [platformCreateMeetEvent_fst]
      exact ensureInit_inited svc cfg
    · intro hi
      show (platformCreateMeetEvent svc cfg pApi cal).1.service = cfg
      rw [platformCreateMeetEvent_fst]
      exact ensureInit_fresh cfg hi
    · intro hi
      show (platformCreateMeetEvent svc cfg pApi cal).1 = svc
      rw [platformCreateMeetEvent_fst]
      exact ensureInit_already cfg hi
    · show pyOr booking.meetingLink
        (platformCreateMeetEvent svc cfg pApi cal).2.1.meetLink =
        (platformCreateMeetEvent svc cfg pApi cal).2.1.meetLink
      rw [hml]
      rfl
    · show pyOr booking.googleEventId
        (platformCreateMeetEvent svc cfg pApi cal).2.1.eventId =
        (platformCreateMeetEvent svc cfg pApi cal).2.1.eventId
      rw [hev]
      rfl
  · intro e l hconn htok htApi
    subst htApi
    rw [confirmBooking_eq hfb hft hid hst hem]
    have heq : confirmCore db svc cal booking tutor booking.id (ApiOutcome.ok e l)
        aApi cfg pApi =
        confirmFinish db svc booking.id cfg pApi
          { eventId := some e, meetLink := l, status := MeetStatus.created }
          booking (cal ++ [e]) := by
      rw [confirmCore_noReuse svc cal tutor booking.id (ApiOutcome.ok e l) aApi cfg pApi
            hpath,
          createMeetEventForTutor_ok cal e l hconn htok]
    rw [heq, confirmFinish_notPending db svc booking.id cfg pApi
      { eventId := some e, meetLink := l, status := MeetStatus.created }
      booking (cal ++ [e]) (by simp)]
    refine ⟨_, rfl, rfl, ?_, ?_, rfl⟩
    · show pyOr booking.meetingLink l = l
      rw [hml]
      rfl
    · show pyOr booking.googleEventId (some e) = some e
      rw [hev]
      rfl

/-- C10, witness: confirming the pending private booking with the tutor
API raising and the platform fallback configured and healthy — the global
service ends up initialized and the booking carries the fallback link. -/
theorem c10_witness :
    ∃ r, confirmBooking dbWithBooking1 svc0 [] tutorUser pendingBooking1.id
        ApiOutcome.fail AttendOutcome.fail true (ApiOutcome.ok "PE" (some "PL")) =
        .ok r ∧
      r.2.1.inited = true ∧ r.2.1.service = true ∧
      r.2.2.2.meetingLink = some "PL" := by
  obtain ⟨r, hok, hsvc, hin, hserv, -, hlink, -⟩ :=
    (c10_platform_fallback dbWithBooking1 svc0 [] tutorUser pendingBooking1 exTutor
      ApiOutcome.fail AttendOutcome.fail true (ApiOutcome.ok "PE" (some "PL"))
      rfl rfl rfl (by decide) rfl rfl rfl (Or.inl rfl)).1
    (Or.inr (Or.inr rfl))
  refine ⟨r, hok, hin, ?_, ?_⟩
  · exact hserv rfl
  · rw [hlink]
    rfl

/-! ## C8: group meeting-artifact reuse -/

/-- A pending group booking of tutor 10 at instant 3000. -/
def groupPending : Booking :=
  { pendingBooking1 with
    id := 120, sessionType := SessionType.group, scheduledAt := 3000 }

/-- A confirmed *private* booking sharing (tutor, scheduledAt,
durationMinutes) with `groupPending` and holding a meeting artifact. -/
def privConfirmed : Booking :=
  { pendingBooking1 with
    id := 121, studentId := 3, scheduledAt := 3000,
    status := BookingStatus.confirmed, googleEventId := some "E1",
    meetingLink := some "L1" }

/-- Database with the pending group booking and the confirmed private
booking at the same tuple. -/
def dbC8 : DB :=
  { bookings := [groupPending, privConfirmed], payments := [], relations := [],
    tutors := [exTutor], settings := exSettings, nextId := 122 }

/-- A confirmed *group* booking sharing the tuple with `groupPending` and
holding a meeting artifact. -/
def groupConfirmed : Booking :=
  { pendingBooking1 with
    id := 130, studentId := 4, sessionType := SessionType.group,
    scheduledAt := 3000, status := BookingStatus.confirmed,
    googleEventId := some "E1", meetingLink := some "L1" }

/-- Database with the pending group booking and the confirmed group
booking at the same tuple. -/
def dbC8b : DB :=
  { bookings := [groupPending, groupConfirmed], payments := [], relations := [],
    tutors := [exTutor], settings := exSettings, nextId := 131 }

/-- C8, counterexample: `privConfirmed` is another Confirmed booking with
the identical (tutor, scheduledAt, durationMinutes) tuple and a non-null
artifact id, but the reuse lookup additionally filters on
`session_type = "group"`, so confirming the group booking does *not*
reuse artifact E1 — it provisions a new artifact E2. -/
theorem c8_counterexample :
    privConfirmed.tutorId = groupPending.tutorId ∧
    privConfirmed.scheduledAt = groupPending.scheduledAt ∧
    privConfirmed.durationMinutes = groupPending.durationMinutes ∧
    privConfirmed.status = BookingStatus.confirmed ∧
    privConfirmed.googleEventId = some "E1" ∧
    (confirmBooking dbC8 svc0 [] tutorUser 120 (ApiOutcome.ok "E2" (some "L2"))
      (AttendOutcome.ok (some "LA")) false ApiOutcome.fail).isOk = true ∧
    (confirmResBooking
      (confirmBooking dbC8 svc0 [] tutorUser 120 (ApiOutcome.ok "E2" (some "L2"))
        (AttendOutcome.ok (some "LA")) false ApiOutcome.fail)
      groupPending).googleEventId = some "E2" := by
  exact ⟨rfl, rfl, rfl, rfl, rfl, rfl, rfl⟩

/-- C8, amended: the reuse lookup is scoped to *group* bookings (with a
different id) that are Confirmed with a non-null artifact id on the
identical (tutor, scheduledAt, durationMinutes) tuple; when such a
booking exists and the attendee-add succeeds, the student is added to the
existing artifact, its id is stored on the newly confirmed booking (its
link too, when present) and no new artifact is created; when no such
group booking exists, a new artifact is provisioned. -/
theorem c8_amended (db : DB) (svc : MeetSvc) (cal : ExtCal) (user : UserAcct)
    (booking : Booking) (tutor : TutorProfile) (tApi : ApiOutcome) (aApi : AttendOutcome)
    (cfg : Bool) (pApi : ApiOutcome)
    (hfb : db.bookings.find? (fun x => decide (x.id = booking.id)) = some booking)
    (hft : db.tutors.find? (fun t2 => decide (t2.userId = user.id)) = some tutor)
    (hid : tutor.id = booking.tutorId)
    (hst : booking.status ≠ BookingStatus.confirmed)
    (hem : strTruthy booking.studentEmail = true)
    (hgroup : booking.sessionType = SessionType.group)
    (hconn : tutor.googleCalendarConnected = true)
    (htok : tutor.hasGoogleAccessToken = true) :
    (∀ existing eid l, findExistingGroupBooking db booking = some existing →
      existing.googleEventId = some eid → aApi = AttendOutcome.ok l →
      ∃ r, confirmBooking db svc cal user booking.id tApi aApi cfg pApi = .ok r ∧
        r.2.2.2.googleEventId = some eid ∧ r.2.2.1 = cal ∧ r.2.1 = svc ∧
        (strTruthy existing.meetingLink = true →
          r.2.2.2.meetingLink = existing.meetingLink)) ∧
    (∀ e l, findExistingGroupBooking db booking = none → booking.googleEventId = none →
      tApi = ApiOutcome.ok e l →
      ∃ r, confirmBooking db svc cal user booking.id tApi aApi cfg pApi = .ok r ∧
        r.2.2.2.googleEventId = some e ∧ r.2.2.1 = cal ++ [e]) := by
  constructor
  · intro existing eid l hex heid haApi
    subst haApi
    rw [confirmBooking_eq hfb hft hid hst hem]
    have heq : confirmCore db svc cal booking tutor booking.id tApi
        (AttendOutcome.ok l) cfg pApi =
        confirmFinish db svc booking.id cfg pApi
          { eventId := some eid, meetLink := l, status := MeetStatus.updated }
          { booking with googleEventId := existing.googleEventId,
                         meetingLink := pyOr existing.meetingLink l }
          cal := by
      rw [confirmCore_reuse svc cal tutor booking.id tApi (AttendOutcome.ok l) cfg pApi
            hgroup hex heid,
          addAttendee_ok eid l hconn htok]
    rw [heq, confirmFinish_notPending db svc booking.id cfg pApi
      { eventId := some eid, meetLink := l, status := MeetStatus.updated }
      _ cal (by simp)]
    refine ⟨_, rfl, ?_, rfl, rfl, ?_⟩
    · show pyOr existing.googleEventId (some eid) = some eid
      rw [heid]
      exact pyOr_idem _
    · intro hml'
      show pyOr (pyOr existing.meetingLink l) l = existing.meetingLink
      have h1 : pyOr existing.meetingLink l = existing.meetingLink := by
        unfold pyOr
        rw [if_pos hml']
      rw [h1, h1]
  · intro e l hexn hev htApi
    subst htApi
    rw [confirmBooking_eq hfb hft hid hst hem]
    have heq : confirmCore db svc cal booking tutor booking.id (ApiOutcome.ok e l)
        aApi cfg pApi =
        confirmFinish db svc booking.id cfg pApi
          { eventId := some e, meetLink := l, status := MeetStatus.created }
          booking (cal ++ [e]) := by
      rw [confirmCore_noReuse svc cal tutor booking.id (ApiOutcome.ok e l) aApi cfg pApi
            (Or.inr hexn),
          createMeetEventForTutor_ok cal e l hconn htok]
    rw [heq, confirmFinish_notPending db svc booking.id cfg pApi
      { eventId := some e, meetLink := l, status := MeetStatus.created }
      booking (cal ++ [e]) (by simp)]
    refine ⟨_, rfl, ?_, rfl⟩
    show pyOr booking.googleEventId (some e) = some e
    rw [hev]
    rfl

/-- C8, witness: with a confirmed *group* booking holding artifact E1 at
the same tuple, confirming the pending group booking stores E1 (and the
existing link) and creates no new artifact. -/
theorem c8_witness :
    ∃ r, confirmBooking dbC8b svc0 [] tutorUser groupPending.id
        (ApiOutcome.ok "E2" (some "L2")) (AttendOutcome.ok (some "LA")) false
        ApiOutcome.fail = .ok r ∧
      r.2.2.2.googleEventId = some "E1" ∧ r.2.2.1 = [] ∧ r.2.1 = svc0 ∧
      (strTruthy groupConfirmed.meetingLink = true →
        r.2.2.2.meetingLink = groupConfirmed.meetingLink) :=
  (c8_amended dbC8b svc0 [] tutorUser groupPending exTutor
    (ApiOutcome.ok "E2" (some "L2")) (AttendOutcome.ok (some "LA")) false
    ApiOutcome.fail rfl rfl rfl (by decide) rfl rfl rfl rfl).1
    groupConfirmed "E1" (some "LA") rfl rfl rfl

/-! ## C9: public month calendar -/

/-- C9, counterexample: a tutor whose availability template was never
configured (no `TutorAvailability` record) resolves to an *empty* day
list — the response carries no per-day entries at all, rather than one
`available = false` entry for each of the month's 30 days. -/
theorem c9_counterexample :
    (getTutorPublicCalendar [exTutor] [] [] 10 2025 4 "private"
      { year := 2025, month := 4, day := 1 }).isOk = true ∧
    (calRes (getTutorPublicCalendar [exTutor] [] [] 10 2025 4 "private"
      { year := 2025, month := 4, day := 1 })).days.length = 0 ∧
    monthLength 2025 4 = 30 := by
  exact ⟨rfl, rfl, rfl⟩

/-- C9, amended: for a tutor with an availability record, the public
month calendar reports one entry per day of the month, never exposes a
block reason, and marks a day available iff the weekly template has at
least one slot for that weekday and session kind, the day is not blocked,
the day is not strictly in the past, and the tutor is accepting students;
a tutor with no availability record resolves to an empty day list (no
error), not to per-day `available = false` entries. -/
theorem c9_amended (tutors : List TutorProfile) (avails : List TutorAvailability)
    (blocked : List BlockedDateR) (tutorId year month : ℕ) (sessionType : String)
    (today : CalDate) (tutor : TutorProfile)
    (htut : tutors.find? (fun t2 => decide (t2.id = tutorId)) = some tutor)
    (hg1 : ¬(sessionType = "group" ∧ tutor.offersGroup = false))
    (hg2 : ¬(sessionType = "private" ∧ tutor.offersPrivate = false)) :
    (avails.find? (fun a2 => decide (a2.tutorId = tutorId)) = none →
      getTutorPublicCalendar tutors avails blocked tutorId year month sessionType today =
        .ok (emptyMonthResponse year month)) ∧
    (∀ a, avails.find? (fun a2 => decide (a2.tutorId = tutorId)) = some a →
      ∃ m, getTutorPublicCalendar tutors avails blocked tutorId year month sessionType
          today = .ok m ∧
        m.days.length = monthLength year month ∧
        ∀ day ∈ m.days, day.reason = none ∧
          (day.isAvailable = true ↔
            (schedGet (scheduleBySessionType a sessionType)
                (weekdayName day.date.year day.date.month day.date.day) ≠ [] ∧
             day.date ∉ blockedDatesFor blocked tutorId year month ∧
             dateLtB day.date today = false ∧
             a.isAcceptingStudents = true))) := by
  constructor
  · intro hn
    unfold getTutorPublicCalendar
    rw [htut]
    simp only [if_neg hg1, if_neg hg2]
    rw [hn]
  · intro a ha
    unfold getTutorPublicCalendar
    rw [htut]
    simp only [if_neg hg1, if_neg hg2]
    rw [ha]
    refine ⟨_, rfl, by simp, ?_⟩
    intro day hday
    rw [List.mem_map] at hday
    obtain ⟨i, hi, rfl⟩ := hday
    refine ⟨rfl, ?_⟩
    show ((decide (0 < (schedGet (scheduleBySessionType a sessionType)
        (weekdayName year month (i + 1))).length) &&
        !(decide (({ year := year, month := month, day := i + 1 } : CalDate) ∈
            blockedDatesFor blocked tutorId year month) ||
          dateLtB { year := year, month := month, day := i + 1 } today) &&
        a.isAcceptingStudents) = true) ↔ _
    simp only [Bool.and_eq_true, Bool.not_eq_true', Bool.or_eq_false_iff,
      decide_eq_true_eq, decide_eq_false_iff_not, List.length_pos, and_assoc]
    exact Iff.rfl

/-- C9, witness: with a configured availability record, the April 2025
public calendar reports one entry for each of the 30 days. -/
theorem c9_witness :
    ∃ m, getTutorPublicCalendar [exTutor] [exAvail] [] 10 2025 4 "private"
        { year := 2025, month := 4, day := 1 } = .ok m ∧
      m.days.length = monthLength 2025 4 := by
  obtain ⟨m, hok, hlen, -⟩ :=
    (c9_amended [exTutor] [exAvail] [] 10 2025 4 "private"
      { year := 2025, month := 4, day := 1 } exTutor rfl (by decide) (by decide)).2
      exAvail rfl
  exact ⟨m, hok, hlen⟩
